import Mathlib

/-!
Verification of the Minecraft RCON client (`src/bot/src/core/rcon_client.py`).

This file is a shallow embedding of the RCON protocol client: the binary
packet codec (`RCONPacket.encode` / `RCONPacket.decode`), the connection
manager (`_connect_internal`, `_authenticate`, `_disconnect_internal`,
`_reconnect`), the request-id correlator (`_next_request_id`) and the command
executor (`_execute_internal`).  Network effects (the transport, injected
timeouts and I/O faults, successive connection attempts) are modelled by an
explicit environment threaded through every operation, so each Python method
becomes a pure state-passing function.

Machine integers are modelled as `Nat`/`Int` with explicit two's-complement
reduction where the wire format demands it; byte buffers are `List Nat`.
-/

namespace MCRcon

/-! ## Little-endian signed 32-bit integers (`struct.pack('<i', ·)`) -/

/-- The two's-complement 32-bit representative of an integer, as a `Nat`
in `[0, 2^32)`.  Models how `struct.pack('<i', i)` lays out `i`. -/
def toRep32 (i : Int) : Nat := (i % 4294967296).toNat

/-- Encoding `struct.pack('<i', i)`: four little-endian bytes. -/
def int32LE (i : Int) : List Nat :=
  let n := toRep32 i
  [n % 256, n / 256 % 256, n / 65536 % 256, n / 16777216 % 256]

/-- Recombine four little-endian bytes into a `Nat`. -/
def leNat : List Nat → Nat
  | [b0, b1, b2, b3] => b0 + 256 * b1 + 65536 * b2 + 16777216 * b3
  | _ => 0

/-- Decoding `struct.unpack('<i', ·)`: four little-endian bytes as a signed 32-bit
integer. -/
def leToInt32 (bs : List Nat) : Int :=
  let n := leNat bs
  if n < 2147483648 then (n : Int) else (n : Int) - 4294967296

theorem int32LE_length (i : Int) : (int32LE i).length = 4 := rfl

/-- Decoding inverts encoding on the signed 32-bit range. -/
theorem leToInt32_int32LE (i : Int) (h1 : -2147483648 ≤ i) (h2 : i < 2147483648) :
    leToInt32 (int32LE i) = i := by
  have hmod : i % 4294967296 = if 0 ≤ i then i else i + 4294967296 := by
    split
    · exact Int.emod_eq_of_lt (by omega) (by omega)
    · omega
  simp only [leToInt32, int32LE, leNat, toRep32]
  split at hmod <;> · rw [hmod]; omega

theorem leToInt32_int32LE_witness : leToInt32 (int32LE (-7)) = -7 :=
  leToInt32_int32LE (-7) (by norm_num) (by norm_num)

/-! ## UTF-8 (`str.encode('utf-8')` and `bytes.decode('utf-8', errors='replace')`) -/

/-- UTF-8 encoding of one Unicode scalar value. -/
def utf8EncodeChar (c : Char) : List Nat :=
  let v := c.toNat
  if v < 128 then [v]
  else if v < 2048 then [192 + v / 64, 128 + v % 64]
  else if v < 65536 then [224 + v / 4096, 128 + v / 64 % 64, 128 + v % 64]
  else [240 + v / 262144, 128 + v / 4096 % 64, 128 + v / 64 % 64, 128 + v % 64]

/-- Encoding `s.encode('utf-8')` as a byte list. -/
def utf8Encode (s : String) : List Nat := s.data.flatMap utf8EncodeChar

/-- The U+FFFD replacement character used by `errors='replace'`. -/
def replChar : Char := '�'

/-- Admissible range of the first continuation byte of a three-byte
sequence, as a function of the lead byte (exclusive upper bound). -/
def lo3 (b0 : Nat) : Nat := if b0 = 224 then 160 else 128
def hi3 (b0 : Nat) : Nat := if b0 = 237 then 160 else 192

/-- Admissible range of the first continuation byte of a four-byte
sequence, as a function of the lead byte (exclusive upper bound). -/
def lo4 (b0 : Nat) : Nat := if b0 = 240 then 144 else 128
def hi4 (b0 : Nat) : Nat := if b0 = 244 then 144 else 192

/-- Decode one UTF-8 sequence whose lead byte is `b0` and whose remaining
input is `rest`.  Returns the decoded character (or U+FFFD on a malformed
sequence) together with how many bytes of `rest` belong to the sequence,
following the maximal-subpart policy of Python's `errors='replace'`. -/
def utf8Step (b0 : Nat) (rest : List Nat) : Char × Nat :=
  if b0 < 128 then (Char.ofNat b0, 0)
  else if b0 < 194 then (replChar, 0)
  else if b0 < 224 then
    match rest with
    | [] => (replChar, 0)
    | b1 :: _ =>
      if 128 ≤ b1 ∧ b1 < 192 then
        (Char.ofNat ((b0 - 192) * 64 + (b1 - 128)), 1)
      else (replChar, 0)
  else if b0 < 240 then
    match rest with
    | [] => (replChar, 0)
    | b1 :: r2 =>
      if lo3 b0 ≤ b1 ∧ b1 < hi3 b0 then
        match r2 with
        | [] => (replChar, 1)
        | b2 :: _ =>
          if 128 ≤ b2 ∧ b2 < 192 then
            (Char.ofNat ((b0 - 224) * 4096 + (b1 - 128) * 64 + (b2 - 128)), 2)
          else (replChar, 1)
      else (replChar, 0)
  else if b0 < 245 then
    match rest with
    | [] => (replChar, 0)
    | b1 :: r2 =>
      if lo4 b0 ≤ b1 ∧ b1 < hi4 b0 then
        match r2 with
        | [] => (replChar, 1)
        | b2 :: r3 =>
          if 128 ≤ b2 ∧ b2 < 192 then
            match r3 with
            | [] => (replChar, 2)
            | b3 :: _ =>
              if 128 ≤ b3 ∧ b3 < 192 then
                (Char.ofNat ((b0 - 240) * 262144 + (b1 - 128) * 4096 +
                  (b2 - 128) * 64 + (b3 - 128)), 3)
              else (replChar, 2)
          else (replChar, 1)
      else (replChar, 0)
  else (replChar, 0)

/-- The decoding loop, with a step-count bound making the recursion
structural (each step consumes at least the lead byte, so `l.length` steps
always suffice; the `0, _ :: _` case is unreachable from `utf8DecodeReplace`). -/
def utf8DecodeGo : Nat → List Nat → List Char
  | _, [] => []
  | 0, _ :: _ => []
  | fuel + 1, b0 :: rest =>
    let (c, k) := utf8Step b0 rest
    c :: utf8DecodeGo fuel (rest.drop k)

/-- Decoding `bytes.decode('utf-8', errors='replace')` as a character list. -/
def utf8DecodeReplace (l : List Nat) : List Char := utf8DecodeGo l.length l

theorem utf8DecodeGo_fuel (f1 : Nat) : ∀ (f2 : Nat) (l : List Nat),
    l.length ≤ f1 → l.length ≤ f2 → utf8DecodeGo f1 l = utf8DecodeGo f2 l := by
  induction f1 with
  | zero =>
    intro f2 l h1 _
    have : l = [] := by
      cases l
      · rfl
      · simp at h1
    subst this
    cases f2 <;> rfl
  | succ g1 ih =>
    intro f2 l h1 h2
    cases l with
    | nil => cases f2 <;> rfl
    | cons b0 rest =>
      cases f2 with
      | zero => simp at h2
      | succ g2 =>
        simp only [utf8DecodeGo]
        have hd : (rest.drop (utf8Step b0 rest).2).length ≤ rest.length := by
          simp [List.length_drop]
        simp only [List.length_cons] at h1 h2
        rw [ih g2 (rest.drop (utf8Step b0 rest).2) (by omega) (by omega)]

theorem utf8DecodeReplace_cons (b0 : Nat) (rest : List Nat) :
    utf8DecodeReplace (b0 :: rest) =
      (utf8Step b0 rest).1 :: utf8DecodeReplace (rest.drop (utf8Step b0 rest).2) := by
  simp only [utf8DecodeReplace, List.length_cons, utf8DecodeGo]
  have hd : (rest.drop (utf8Step b0 rest).2).length ≤ rest.length := by
    simp [List.length_drop]
  rw [utf8DecodeGo_fuel rest.length (rest.drop (utf8Step b0 rest).2).length
    (rest.drop (utf8Step b0 rest).2) (by omega) (by omega)]

theorem char_valid_nat (c : Char) :
    c.toNat < 55296 ∨ (57343 < c.toNat ∧ c.toNat < 1114112) := c.valid

theorem utf8EncodeChar_eq1 (c : Char) (h : c.toNat < 128) :
    utf8EncodeChar c = [c.toNat] := by
  simp only [utf8EncodeChar]
  rw [if_pos h]

theorem utf8EncodeChar_eq2 (c : Char) (h1 : 128 ≤ c.toNat) (h2 : c.toNat < 2048) :
    utf8EncodeChar c = [192 + c.toNat / 64, 128 + c.toNat % 64] := by
  simp only [utf8EncodeChar]
  rw [if_neg (by omega), if_pos h2]

theorem utf8EncodeChar_eq3 (c : Char) (h1 : 2048 ≤ c.toNat) (h2 : c.toNat < 65536) :
    utf8EncodeChar c =
      [224 + c.toNat / 4096, 128 + c.toNat / 64 % 64, 128 + c.toNat % 64] := by
  simp only [utf8EncodeChar]
  rw [if_neg (by omega), if_neg (by omega), if_pos h2]

theorem utf8EncodeChar_eq4 (c : Char) (h1 : 65536 ≤ c.toNat) :
    utf8EncodeChar c =
      [240 + c.toNat / 262144, 128 + c.toNat / 4096 % 64,
       128 + c.toNat / 64 % 64, 128 + c.toNat % 64] := by
  simp only [utf8EncodeChar]
  rw [if_neg (by omega), if_neg (by omega), if_neg (by omega)]

/-- Decoding one encoded character consumes exactly its own bytes and
yields the character back. -/
theorem utf8DecodeReplace_encodeChar (c : Char) (rest : List Nat) :
    utf8DecodeReplace (utf8EncodeChar c ++ rest) = c :: utf8DecodeReplace rest := by
  have hv := char_valid_nat c
  by_cases hc1 : c.toNat < 128
  · rw [utf8EncodeChar_eq1 c hc1, List.cons_append, List.nil_append,
      utf8DecodeReplace_cons]
    have hstep : utf8Step c.toNat rest = (c, 0) := by
      unfold utf8Step
      rw [if_pos hc1, Char.ofNat_toNat]
    rw [hstep]
    simp
  · by_cases hc2 : c.toNat < 2048
    · rw [utf8EncodeChar_eq2 c (by omega) hc2]
      simp only [List.cons_append, List.nil_append]
      rw [utf8DecodeReplace_cons]
      have hstep : utf8Step (192 + c.toNat / 64) ((128 + c.toNat % 64) :: rest)
          = (c, 1) := by
        unfold utf8Step
        rw [if_neg (by omega), if_neg (by omega), if_pos (by omega)]
        simp only [if_pos (show 128 ≤ 128 + c.toNat % 64 ∧ 128 + c.toNat % 64 < 192 by omega)]
        have harg : (192 + c.toNat / 64 - 192) * 64 + (128 + c.toNat % 64 - 128)
            = c.toNat := by omega
        rw [harg, Char.ofNat_toNat]
      rw [hstep]
      simp
    · by_cases hc3 : c.toNat < 65536
      · rw [utf8EncodeChar_eq3 c (by omega) hc3]
        simp only [List.cons_append, List.nil_append]
        rw [utf8DecodeReplace_cons]
        have hstep : utf8Step (224 + c.toNat / 4096)
            ((128 + c.toNat / 64 % 64) :: (128 + c.toNat % 64) :: rest)
            = (c, 2) := by
          unfold utf8Step
          rw [if_neg (by omega), if_neg (by omega), if_neg (by omega),
            if_pos (by omega)]
          have hcond : lo3 (224 + c.toNat / 4096) ≤ 128 + c.toNat / 64 % 64 ∧
              128 + c.toNat / 64 % 64 < hi3 (224 + c.toNat / 4096) := by
            simp only [lo3, hi3]
            constructor <;> split_ifs <;> omega
          simp only [if_pos hcond,
            if_pos (show 128 ≤ 128 + c.toNat % 64 ∧ 128 + c.toNat % 64 < 192 by omega)]
          have harg : (224 + c.toNat / 4096 - 224) * 4096 +
              (128 + c.toNat / 64 % 64 - 128) * 64 + (128 + c.toNat % 64 - 128)
              = c.toNat := by omega
          rw [harg, Char.ofNat_toNat]
        rw [hstep]
        simp
      · rw [utf8EncodeChar_eq4 c (by omega)]
        simp only [List.cons_append, List.nil_append]
        rw [utf8DecodeReplace_cons]
        have hstep : utf8Step (240 + c.toNat / 262144)
            ((128 + c.toNat / 4096 % 64) :: (128 + c.toNat / 64 % 64) ::
              (128 + c.toNat % 64) :: rest)
            = (c, 3) := by
          unfold utf8Step
          rw [if_neg (by omega), if_neg (by omega), if_neg (by omega),
            if_neg (by omega), if_pos (by omega)]
          have hcond : lo4 (240 + c.toNat / 262144) ≤ 128 + c.toNat / 4096 % 64 ∧
              128 + c.toNat / 4096 % 64 < hi4 (240 + c.toNat / 262144) := by
            simp only [lo4, hi4]
            constructor <;> split_ifs <;> omega
          simp only [if_pos hcond,
            if_pos (show 128 ≤ 128 + c.toNat / 64 % 64 ∧ 128 + c.toNat / 64 % 64 < 192 by omega),
            if_pos (show 128 ≤ 128 + c.toNat % 64 ∧ 128 + c.toNat % 64 < 192 by omega)]
          have harg : (240 + c.toNat / 262144 - 240) * 262144 +
              (128 + c.toNat / 4096 % 64 - 128) * 4096 +
              (128 + c.toNat / 64 % 64 - 128) * 64 + (128 + c.toNat % 64 - 128)
              = c.toNat := by omega
          rw [harg, Char.ofNat_toNat]
        rw [hstep]
        simp

/-- UTF-8 round trip on character lists. -/
theorem utf8DecodeReplace_flatMap (cs : List Char) :
    utf8DecodeReplace (cs.flatMap utf8EncodeChar) = cs := by
  induction cs with
  | nil => rfl
  | cons c cs ih =>
    rw [List.flatMap_cons, utf8DecodeReplace_encodeChar, ih]

/-- UTF-8 round trip: decoding the encoding of a string recovers it. -/
theorem utf8DecodeReplace_encode (s : String) :
    utf8DecodeReplace (utf8Encode s) = s.data :=
  utf8DecodeReplace_flatMap s.data

theorem string_mk_data (s : String) : String.mk s.data = s := rfl

/-! ## The RCON error taxonomy

`RCONError` and its subclasses from the source.  `protocolErr` stands for a
bare `RCONError` raise (what the spec calls a protocol error: malformed
frame / invalid declared size). -/

inductive RCONErr where
  | protocolErr (msg : String)
  | connErr (msg : String)
  | authErr (msg : String)
  | timeoutErr (msg : String)
  | commandErr (msg : String)
deriving DecidableEq, Repr

/-! ## The packet codec (`RCONPacket`) -/

structure RCONPacket where
  request_id : Int
  packet_type : Int
  payload : String
deriving DecidableEq, Repr

/-- The method `RCONPacket.encode`: `struct.pack('<i', size) + struct.pack('<ii',
request_id, packet_type) + payload.encode('utf-8') + b'\x00\x00'`. -/
def RCONPacket.encode (p : RCONPacket) : List Nat :=
  let payload_bytes := utf8Encode p.payload ++ [0, 0]
  let packet_body := int32LE p.request_id ++ int32LE p.packet_type ++ payload_bytes
  int32LE (packet_body.length : Int) ++ packet_body

/-- The method `RCONPacket.decode`: rejects buffers shorter than 10 bytes, reads the
two leading little-endian int32 fields, and decodes `data[8:-2]` as UTF-8
with replacement. -/
def RCONPacket.decode (data : List Nat) : Except RCONErr RCONPacket :=
  if data.length < 10 then .error (.protocolErr "Paquet RCON trop court")
  else .ok
    { request_id := leToInt32 (data.take 4)
      packet_type := leToInt32 ((data.drop 4).take 4)
      payload := String.mk (utf8DecodeReplace ((data.drop 8).dropLast.dropLast)) }

theorem take4_int32LE (i : Int) (l : List Nat) :
    (int32LE i ++ l).take 4 = int32LE i := rfl

theorem drop4_int32LE (i : Int) (l : List Nat) :
    (int32LE i ++ l).drop 4 = l := rfl

theorem drop8_int32LE (i j : Int) (l : List Nat) :
    (int32LE i ++ (int32LE j ++ l)).drop 8 = l := rfl

theorem dropLast_two_append (l : List Nat) (a b : Nat) :
    (l ++ [a, b]).dropLast.dropLast = l := by
  have : l ++ [a, b] = (l ++ [a]) ++ [b] := by simp
  rw [this, List.dropLast_concat, List.dropLast_concat]

/-- The body (everything after the 4-byte length prefix) of an encoded
packet. -/
theorem encode_drop4 (p : RCONPacket) :
    p.encode.drop 4 =
      int32LE p.request_id ++ (int32LE p.packet_type ++
        (utf8Encode p.payload ++ [0, 0])) := by
  simp only [RCONPacket.encode, List.append_assoc]
  exact drop4_int32LE _ _

theorem encode_body_length (p : RCONPacket) :
    (p.encode.drop 4).length = 10 + (utf8Encode p.payload).length := by
  rw [encode_drop4]
  simp [int32LE]
  omega

/-- Decoding the body of an encoded packet recovers the packet
(request id, type and payload text), for any int32 fields. -/
theorem decode_encode_body (rid ty : Int) (pl : String)
    (h1 : -2147483648 ≤ rid) (h2 : rid < 2147483648)
    (h3 : -2147483648 ≤ ty) (h4 : ty < 2147483648) :
    RCONPacket.decode ((RCONPacket.encode ⟨rid, ty, pl⟩).drop 4) =
      .ok ⟨rid, ty, pl⟩ := by
  rw [RCONPacket.decode, if_neg (by rw [encode_body_length]; omega)]
  rw [encode_drop4]
  simp only [take4_int32LE, drop4_int32LE, drop8_int32LE]
  rw [dropLast_two_append, leToInt32_int32LE rid h1 h2, leToInt32_int32LE ty h3 h4,
    utf8DecodeReplace_encode, string_mk_data]

instance {ε α : Type} [DecidableEq ε] [DecidableEq α] : DecidableEq (Except ε α) := by
  intro a b
  cases a <;> cases b
  case error.error e1 e2 =>
    exact decidable_of_iff (e1 = e2) (by simp)
  case ok.ok v1 v2 =>
    exact decidable_of_iff (v1 = v2) (by simp)
  all_goals exact isFalse (by simp)

/-- Claim C3, as stated, is false: `decode` applied directly to the full
output of `encode` (length prefix included) misparses, because `decode`
expects the body only.  At `(0, 2, "")` the decoded request id is the size
field `10`, not `0`. -/
theorem decode_encode_no_roundtrip :
    RCONPacket.decode (RCONPacket.encode ⟨0, 2, ""⟩) ≠
      .ok ⟨0, 2, ""⟩ := by decide

/-! ## The client and its environment

Network effects are scripted: a `Transport` carries the bytes the server
will deliver, an end-of-file flag, per-send drain outcomes, and per-read
injected `OSError`s; the `world` lists the outcomes of successive
`asyncio.open_connection` attempts. -/

inductive SendEv where
  | ok
  | timeout
  | oserr
deriving DecidableEq, Repr

structure Transport where
  stream : List Nat
  eof : Bool
  sendEvs : List SendEv
  readFaults : List Bool
deriving DecidableEq, Repr

inductive ConnectOutcome where
  | ok (t : Transport)
  | timeout
  | oserr
deriving DecidableEq, Repr

/-- The configuration fields that influence control flow (`host`, `port`,
`timeout` and `reconnect_delay` do not). -/
structure ClientCfg where
  password : String
  autoReconnect : Bool
  maxReconnectAttempts : Nat
deriving DecidableEq, Repr

/-- Fields `_request_id`, `_connected`, `_authenticated`. -/
structure ClientState where
  requestId : Nat
  connected : Bool
  authenticated : Bool
deriving DecidableEq, Repr

/-- The full system state: client fields, the current reader/writer pair
(`none` when closed), the remaining connection script, and a trace of every
packet written to a transport. -/
structure Sys where
  cfg : ClientCfg
  cs : ClientState
  tr : Option Transport
  world : List ConnectOutcome
  sent : List RCONPacket
deriving DecidableEq, Repr

/-- The counter update of `_next_request_id`: `(self._request_id + 1) % 2147483647`. -/
def nextRequestId (r : Nat) : Nat := (r + 1) % 2147483647

def nextRequestIdS (s : Sys) : Nat × Sys :=
  let r := nextRequestId s.cs.requestId
  (r, { s with cs := { s.cs with requestId := r } })

/-- The `is_connected` property: `self._connected and self._authenticated`. -/
def isConnected (s : Sys) : Bool := s.cs.connected && s.cs.authenticated

def clearFlags (s : Sys) : Sys :=
  { s with cs := { s.cs with connected := false, authenticated := false } }

inductive ReadRes where
  | bytes (bs : List Nat)
  | timeout
  | incomplete
  | oserr
deriving DecidableEq, Repr

/-- A call `reader.readexactly(n)` under `asyncio.wait_for`: delivers `n` bytes when
the stream holds them; raises `IncompleteReadError` when the peer closed the
stream short, `asyncio.TimeoutError` when the data never arrives.  A `true`
head of `readFaults` injects an `OSError` for this call. -/
def readexactlyT (n : Nat) (t : Transport) : ReadRes × Transport :=
  let f := t.readFaults.headD false
  let t1 := { t with readFaults := t.readFaults.tail }
  if f then (.oserr, t1)
  else if n ≤ t1.stream.length then
    (.bytes (t1.stream.take n), { t1 with stream := t1.stream.drop n })
  else if t1.eof then (.incomplete, t1)
  else (.timeout, t1)

/-- The method `_send_packet`: refuses when there is no writer; writes the encoded
packet (recorded in the `sent` trace — `write` buffers before `drain` can
fail) and drains, with the drain outcome scripted by the transport.  A drain
`OSError` clears the connection flags; a drain timeout does not. -/
def sendPacketS (p : RCONPacket) (s : Sys) : Except RCONErr Unit × Sys :=
  match s.tr with
  | none => (.error (.connErr "Non connecté au serveur"), s)
  | some t =>
    let ev := t.sendEvs.headD .ok
    let t1 := { t with sendEvs := t.sendEvs.tail }
    let s1 := { s with tr := some t1, sent := s.sent ++ [p] }
    match ev with
    | .ok => (.ok (), s1)
    | .timeout => (.error (.timeoutErr "Timeout envoi paquet"), s1)
    | .oserr => (.error (.connErr "Erreur envoi"), clearFlags s1)

/-- The method `_receive_packet`: reads the 4-byte length prefix, validates the declared
size against `[10, 4096]` (a bare `RCONError` — protocol error — otherwise),
reads the body, decodes it.  Timeouts re-raise as `RCONTimeoutError` without
touching the flags; a closed stream or an `OSError` clears the flags and
raises `RCONConnectionError`. -/
def receivePacketS (s : Sys) : Except RCONErr RCONPacket × Sys :=
  match s.tr with
  | none => (.error (.connErr "Non connecté au serveur"), s)
  | some t =>
    match readexactlyT 4 t with
    | (.timeout, t1) =>
      (.error (.timeoutErr "Timeout réception paquet"), { s with tr := some t1 })
    | (.incomplete, t1) =>
      (.error (.connErr "Connexion fermée par le serveur"),
        clearFlags { s with tr := some t1 })
    | (.oserr, t1) =>
      (.error (.connErr "Erreur de réception"), clearFlags { s with tr := some t1 })
    | (.bytes szb, t1) =>
      let packet_size := leToInt32 szb
      if packet_size < 10 ∨ packet_size > 4096 then
        (.error (.protocolErr "Taille de paquet invalide"), { s with tr := some t1 })
      else
        match readexactlyT packet_size.toNat t1 with
        | (.timeout, t2) =>
          (.error (.timeoutErr "Timeout réception paquet"), { s with tr := some t2 })
        | (.incomplete, t2) =>
          (.error (.connErr "Connexion fermée par le serveur"),
            clearFlags { s with tr := some t2 })
        | (.oserr, t2) =>
          (.error (.connErr "Erreur de réception"), clearFlags { s with tr := some t2 })
        | (.bytes body, t2) =>
          match RCONPacket.decode body with
          | .error e => (.error e, { s with tr := some t2 })
          | .ok p => (.ok p, { s with tr := some t2 })

/-- The interpretation of the authoritative auth response in
`_authenticate`: `request_id == -1` means rejected credential, any other
mismatch with the auth id is a desynchronization; the bare
`self._connected = False` preceding each raise is modelled as-is (the outer
handler clears both flags anyway). -/
def authCheck (auth_id : Nat) (r : RCONPacket) (s : Sys) : Except RCONErr Unit × Sys :=
  if r.request_id = -1 then
    (.error (.authErr "Mot de passe RCON incorrect"),
      { s with cs := { s.cs with connected := false } })
  else if r.request_id ≠ (auth_id : Int) then
    (.error (.authErr "ID de réponse invalide"),
      { s with cs := { s.cs with connected := false } })
  else (.ok (), { s with cs := { s.cs with authenticated := true } })

/-- The body of `_authenticate`'s `try` block: send the `Auth` packet, read a
response, discard it and read again when its type is
`SERVERDATA_RESPONSE_VALUE` (the type is the only thing checked), then
interpret the authoritative response. -/
def authBody (s : Sys) : Except RCONErr Unit × Sys :=
  let (auth_id, s1) := nextRequestIdS s
  match sendPacketS ⟨(auth_id : Int), 3, s1.cfg.password⟩ s1 with
  | (.error e, s2) => (.error e, s2)
  | (.ok _, s2) =>
    match receivePacketS s2 with
    | (.error e, s3) => (.error e, s3)
    | (.ok r, s3) =>
      if r.packet_type = 0 then
        match receivePacketS s3 with
        | (.error e, s4) => (.error e, s4)
        | (.ok r2, s4) => authCheck auth_id r2 s4
      else authCheck auth_id r s3

/-- The method `_authenticate`: any `RCONError` out of the body clears both flags and
re-raises (the `asyncio.TimeoutError` arm of the handler is dead code: the
send/receive helpers already convert timeouts). -/
def authenticateS (s : Sys) : Except RCONErr Unit × Sys :=
  match authBody s with
  | (.error e, s1) => (.error e, clearFlags s1)
  | (.ok _, s1) => (.ok (), s1)

/-- The method `_connect_internal`: no-op when `_connected`; otherwise consume the next
scripted outcome of `asyncio.open_connection` (an exhausted script acts as a
refusal), set `_connected`, then authenticate. -/
def connectInternalS (s : Sys) : Except RCONErr Unit × Sys :=
  if s.cs.connected then (.ok (), s)
  else
    match s.world with
    | [] => (.error (.connErr "Impossible de se connecter"), s)
    | o :: rest =>
      let s1 := { s with world := rest }
      match o with
      | .timeout => (.error (.connErr "Timeout lors de la connexion"), s1)
      | .oserr => (.error (.connErr "Impossible de se connecter"), s1)
      | .ok t =>
        authenticateS { s1 with tr := some t, cs := { s1.cs with connected := true } }

/-- The method `connect()`: `_connect_internal` under the lock. -/
def connectS (s : Sys) : Except RCONErr Unit × Sys := connectInternalS s

/-- The method `_disconnect_internal`: closes and forgets the transport and clears the
flags; a client that never had a writer is left untouched. -/
def disconnectInternalS (s : Sys) : Sys :=
  match s.tr with
  | none => s
  | some _ => clearFlags { s with tr := none }

/-- The loop of `_reconnect`, counting down the remaining attempts: each
cycle disconnects, sleeps, reconnects; any `RCONError` — authentication
failures included — is caught and the loop continues. -/
def reconnectLoop : Nat → Sys → Bool × Sys
  | 0, s => (false, s)
  | n + 1, s =>
    let s1 := disconnectInternalS s
    match connectInternalS s1 with
    | (.ok _, s2) => (true, s2)
    | (.error _, s2) => reconnectLoop n s2

/-- The method `_reconnect`: up to `max_reconnect_attempts` cycles. -/
def reconnectS (s : Sys) : Bool × Sys := reconnectLoop s.cfg.maxReconnectAttempts s

/-- Length of the readable stream of the current transport. -/
def streamLen (s : Sys) : Nat :=
  match s.tr with
  | none => 0
  | some t => t.stream.length

theorem readexactlyT_bytes {n : Nat} {t : Transport} {bs : List Nat} {t' : Transport}
    (h : readexactlyT n t = (.bytes bs, t')) :
    n ≤ t.stream.length ∧ t'.stream.length = t.stream.length - n := by
  simp only [readexactlyT] at h
  split_ifs at h with hf hn
  · cases h
  · injection h with h1 h2
    subst h2
    simp_all
  · cases h
  · cases h

theorem receivePacketS_ok_stream_lt (s : Sys) (p : RCONPacket) (s' : Sys)
    (h : receivePacketS s = (.ok p, s')) : streamLen s' < streamLen s := by
  unfold receivePacketS at h
  split at h
  · simp at h
  · next t hs =>
    split at h
    · simp at h
    · simp at h
    · simp at h
    · next szb t1 hr =>
      have h4 := readexactlyT_bytes hr
      dsimp only at h
      split at h
      · simp at h
      · split at h
        · simp at h
        · simp at h
        · simp at h
        · next body t2 hr2 =>
          have hb := readexactlyT_bytes hr2
          split at h
          · simp at h
          · injection h with h1 h2
            subst h2
            simp only [streamLen, hs]
            omega

/-- The response-collection loop of `_execute_internal`, with a step-count
bound making the recursion structural: every successful receive consumes at
least four stream bytes, so `streamLen s + 1` iterations always suffice (the
`0` case is unreachable from `execLoop`, see `execLoop_eq`). -/
def execLoopGo (request_id : Int) : Nat → Sys → Except RCONErr String × Sys
  | 0, s => (.error (.connErr "Non connecté au serveur"), s)
  | fuel + 1, s =>
    match receivePacketS s with
    | (.error e, s1) => (.error e, s1)
    | (.ok r, s1) =>
      if r.request_id ≠ request_id then execLoopGo request_id fuel s1
      else (.ok r.payload, s1)

/-- The response-collection loop of `_execute_internal`: packets whose id
does not match are skipped (`continue`); once a packet matches, every path
of the loop body `break`s, so exactly that packet's payload is returned. -/
def execLoop (request_id : Int) (s : Sys) : Except RCONErr String × Sys :=
  execLoopGo request_id (streamLen s + 1) s

theorem execLoopGo_fuel (request_id : Int) (f1 : Nat) : ∀ (f2 : Nat) (s : Sys),
    streamLen s < f1 → streamLen s < f2 →
    execLoopGo request_id f1 s = execLoopGo request_id f2 s := by
  induction f1 with
  | zero => intro f2 s h1 _; omega
  | succ g1 ih =>
    intro f2 s h1 h2
    cases f2 with
    | zero => omega
    | succ g2 =>
      simp only [execLoopGo]
      cases hr : receivePacketS s with
      | mk r1 s1 =>
        cases r1 with
        | error e => rfl
        | ok r =>
          have hlt := receivePacketS_ok_stream_lt s r s1 hr
          dsimp only
          split_ifs
          · exact ih g2 s1 (by omega) (by omega)
          · rfl

/-- The loop unfolds as written in the source. -/
theorem execLoop_eq (request_id : Int) (s : Sys) :
    execLoop request_id s =
      match receivePacketS s with
      | (.error e, s1) => (.error e, s1)
      | (.ok r, s1) =>
        if r.request_id ≠ request_id then execLoop request_id s1
        else (.ok r.payload, s1) := by
  show execLoopGo request_id (streamLen s + 1) s = _
  simp only [execLoopGo]
  cases hr : receivePacketS s with
  | mk r1 s1 =>
    cases r1 with
    | error e => rfl
    | ok r =>
      have hlt := receivePacketS_ok_stream_lt s r s1 hr
      dsimp only
      split_ifs
      · exact execLoopGo_fuel request_id (streamLen s) (streamLen s1 + 1) s1
          (by omega) (by omega)
      · rfl

/-- The `try` body of `_execute_internal`: allocate a request id, send the
`ExecCommand` packet, collect the response. -/
def executeAttempt (command : String) (s : Sys) : Except RCONErr String × Sys :=
  let (request_id, s1) := nextRequestIdS s
  match sendPacketS ⟨(request_id : Int), 2, command⟩ s1 with
  | (.error e, s2) => (.error e, s2)
  | (.ok _, s2) => execLoop (request_id : Int) s2

/-- The connectivity preamble of `_execute_internal`. -/
def ensureConnected (retry : Bool) (s : Sys) : Except RCONErr Unit × Sys :=
  if isConnected s then (.ok (), s)
  else if s.cfg.autoReconnect && retry then
    match reconnectS s with
    | (true, s1) => (.ok (), s1)
    | (false, s1) => (.error (.connErr "Impossible de se reconnecter au serveur"), s1)
  else (.error (.connErr "Non connecté au serveur"), s)

/-- The body of `_execute_internal`: connectivity preamble, one attempt,
then the retry policy: a `RCONConnectionError` clears the flags and — when
auto-reconnect is enabled and the retry budget unused — reconnects and
re-executes with `retry=False` (the continuation `onRetry`); an
`RCONTimeoutError` does the same but clears the flags only inside the retry
branch; every other error re-raises unchanged. -/
def executeBody (command : String) (retry : Bool)
    (onRetry : Sys → Except RCONErr String × Sys) (s : Sys) :
    Except RCONErr String × Sys :=
  match ensureConnected retry s with
  | (.error e, s0) => (.error e, s0)
  | (.ok _, s0) =>
    match executeAttempt command s0 with
    | (.ok v, s2) => (.ok v, s2)
    | (.error (.connErr m), s2) =>
      let s3 := clearFlags s2
      if s3.cfg.autoReconnect && retry then
        match reconnectS s3 with
        | (true, s4) => onRetry s4
        | (false, s4) => (.error (.connErr m), s4)
      else (.error (.connErr m), s3)
    | (.error (.timeoutErr m), s2) =>
      if s2.cfg.autoReconnect && retry then
        match reconnectS (clearFlags s2) with
        | (true, s4) => onRetry s4
        | (false, s4) => (.error (.timeoutErr m), s4)
      else (.error (.timeoutErr m), s2)
    | (.error e, s2) => (.error e, s2)

/-- The method `_execute_internal(command, retry)`: the recursion depth is statically
bounded — the recursive call passes `retry=False`, whose body never invokes
its own retry continuation (`retry = false` short-circuits both retry
conditions), so the call tree is laid out explicitly to depth two.  The
innermost continuation is dead code. -/
def executeInternalS (command : String) (retry : Bool) (s : Sys) :
    Except RCONErr String × Sys :=
  executeBody command retry
    (fun s4 => executeBody command false
      (fun s' => (.error (.connErr "Non connecté au serveur"), s')) s4) s

/-- The method `execute(command)`: `_execute_internal(command)` under the lock. -/
def executeS (command : String) (s : Sys) : Except RCONErr String × Sys :=
  executeInternalS command true s

/-! ## Evaluation lemmas for the network primitives -/

/-- A packet representable on the wire: int32 header fields and a payload
small enough that the encoded body fits the `[10, 4096]` window. -/
def wfPacket (p : RCONPacket) : Prop :=
  -2147483648 ≤ p.request_id ∧ p.request_id < 2147483648 ∧
  -2147483648 ≤ p.packet_type ∧ p.packet_type < 2147483648 ∧
  (utf8Encode p.payload).length ≤ 4086

instance (p : RCONPacket) : Decidable (wfPacket p) := by
  unfold wfPacket
  infer_instance

/-- The packet-level shape of `encode`: length prefix, then the body. -/
theorem encode_eq (p : RCONPacket) :
    p.encode = int32LE (((10 + (utf8Encode p.payload).length : Nat) : Int)) ++
      (int32LE p.request_id ++ (int32LE p.packet_type ++
        (utf8Encode p.payload ++ [0, 0]))) := by
  have hlen : (int32LE p.request_id ++ (int32LE p.packet_type ++
      (utf8Encode p.payload ++ [0, 0]))).length
      = 10 + (utf8Encode p.payload).length := by
    simp [int32LE]
    omega
  simp only [RCONPacket.encode, List.append_assoc, hlen]

/-- General form of the body round trip, for any representable packet. -/
theorem decode_encode_drop4 (p : RCONPacket)
    (h1 : -2147483648 ≤ p.request_id) (h2 : p.request_id < 2147483648)
    (h3 : -2147483648 ≤ p.packet_type) (h4 : p.packet_type < 2147483648) :
    RCONPacket.decode (p.encode.drop 4) = .ok p := by
  obtain ⟨rid, ty, pl⟩ := p
  exact decode_encode_body rid ty pl h1 h2 h3 h4

theorem readexactlyT_clean (n : Nat) (st : List Nat) (e : Bool) (se : List SendEv)
    (h : n ≤ st.length) :
    readexactlyT n ⟨st, e, se, []⟩ = (.bytes (st.take n), ⟨st.drop n, e, se, []⟩) := by
  simp [readexactlyT, h]

theorem readexactlyT_short (n : Nat) (st : List Nat) (e : Bool) (se : List SendEv)
    (h : st.length < n) :
    readexactlyT n ⟨st, e, se, []⟩ =
      (if e then .incomplete else .timeout, ⟨st, e, se, []⟩) := by
  simp only [readexactlyT, List.headD_nil, List.tail_nil]
  rw [if_neg (by simp), if_neg (by omega)]
  cases e <;> simp

theorem sendPacketS_clean (p : RCONPacket) (cfg : ClientCfg) (cs : ClientState)
    (st : List Nat) (e : Bool) (rf : List Bool) (w : List ConnectOutcome)
    (sn : List RCONPacket) :
    sendPacketS p ⟨cfg, cs, some ⟨st, e, [], rf⟩, w, sn⟩ =
      (.ok (), ⟨cfg, cs, some ⟨st, e, [], rf⟩, w, sn ++ [p]⟩) := by
  simp [sendPacketS]

theorem sendPacketS_none (p : RCONPacket) (s : Sys) (h : s.tr = none) :
    sendPacketS p s = (.error (.connErr "Non connecté au serveur"), s) := by
  unfold sendPacketS
  rw [h]

/-- Receiving from a stream that starts with one well-formed encoded frame
delivers exactly that packet and consumes exactly its bytes. -/
theorem receivePacketS_frame (p : RCONPacket) (cfg : ClientCfg) (cs : ClientState)
    (rest : List Nat) (e : Bool) (se : List SendEv) (w : List ConnectOutcome)
    (sn : List RCONPacket) (hwf : wfPacket p) :
    receivePacketS ⟨cfg, cs, some ⟨p.encode ++ rest, e, se, []⟩, w, sn⟩ =
      (.ok p, ⟨cfg, cs, some ⟨rest, e, se, []⟩, w, sn⟩) := by
  obtain ⟨h1, h2, h3, h4, h5⟩ := hwf
  have hL : (10 + (utf8Encode p.payload).length : Nat) < 2147483648 := by omega
  have hbody : p.encode.drop 4 =
      int32LE p.request_id ++ (int32LE p.packet_type ++
        (utf8Encode p.payload ++ [0, 0])) := encode_drop4 p
  have hbodylen : (p.encode.drop 4).length = 10 + (utf8Encode p.payload).length :=
    encode_body_length p
  have hST : p.encode ++ rest =
      int32LE (((10 + (utf8Encode p.payload).length : Nat) : Int)) ++
        ((p.encode.drop 4) ++ rest) := by
    conv_lhs => rw [encode_eq p]
    rw [hbody, List.append_assoc]
  have hr1 : readexactlyT 4
      (⟨int32LE (((10 + (utf8Encode p.payload).length : Nat) : Int)) ++
        ((p.encode.drop 4) ++ rest), e, se, []⟩ : Transport) =
      (.bytes (int32LE (((10 + (utf8Encode p.payload).length : Nat) : Int))),
        ⟨(p.encode.drop 4) ++ rest, e, se, []⟩) := by
    rw [readexactlyT_clean 4 _ _ _ (by simp [int32LE])]
    rfl
  have hk : leToInt32 (int32LE (((10 + (utf8Encode p.payload).length : Nat) : Int))) =
      (((10 + (utf8Encode p.payload).length : Nat) : Int)) :=
    leToInt32_int32LE _ (by omega) (by exact_mod_cast hL)
  have hcond : ¬((((10 + (utf8Encode p.payload).length : Nat) : Int)) < 10 ∨
      (((10 + (utf8Encode p.payload).length : Nat) : Int)) > 4096) := by
    push_cast
    omega
  have htn : ((((10 + (utf8Encode p.payload).length : Nat) : Int)).toNat) =
      10 + (utf8Encode p.payload).length := by omega
  have hr2 : readexactlyT (10 + (utf8Encode p.payload).length)
      (⟨(p.encode.drop 4) ++ rest, e, se, []⟩ : Transport) =
      (.bytes (p.encode.drop 4), ⟨rest, e, se, []⟩) := by
    rw [readexactlyT_clean _ _ _ _ (by rw [List.length_append, hbodylen]; omega)]
    rw [List.take_left' hbodylen, List.drop_left' hbodylen]
  have hdec : RCONPacket.decode (p.encode.drop 4) = .ok p :=
    decode_encode_drop4 p h1 h2 h3 h4
  rw [hST]
  simp only [receivePacketS, hr1, hk, if_neg hcond, htn, hr2, hdec]

/-- Receiving from an exhausted stream: a closed peer raises the
connection error, an open one the timeout. -/
theorem receivePacketS_empty (cfg : ClientCfg) (cs : ClientState) (e : Bool)
    (se : List SendEv) (w : List ConnectOutcome) (sn : List RCONPacket) :
    receivePacketS ⟨cfg, cs, some ⟨[], e, se, []⟩, w, sn⟩ =
      (if e then (.error (.connErr "Connexion fermée par le serveur"),
          clearFlags ⟨cfg, cs, some ⟨[], e, se, []⟩, w, sn⟩)
        else (.error (.timeoutErr "Timeout réception paquet"),
          ⟨cfg, cs, some ⟨[], e, se, []⟩, w, sn⟩)) := by
  have hr := readexactlyT_short 4 [] e se (by simp)
  cases e <;> simp [receivePacketS, hr] at hr ⊢ <;> simp [receivePacketS, hr]

/-! ## Trace and state preservation lemmas -/

theorem ensureConnected_connected (retry : Bool) (s : Sys)
    (h : isConnected s = true) : ensureConnected retry s = (.ok (), s) := by
  unfold ensureConnected
  rw [if_pos h]

/-- Number of `ExecCommand` (type 2) packets in a send trace. -/
def cmdCount (l : List RCONPacket) : Nat :=
  (l.filter (fun p => p.packet_type == 2)).length

theorem cmdCount_append (l1 l2 : List RCONPacket) :
    cmdCount (l1 ++ l2) = cmdCount l1 + cmdCount l2 := by
  simp [cmdCount]

theorem sendPacketS_sent (p : RCONPacket) (s : Sys) :
    (sendPacketS p s).2.sent = s.sent ∨ (sendPacketS p s).2.sent = s.sent ++ [p] := by
  unfold sendPacketS
  split
  · left; rfl
  · dsimp only
    split <;> (right; rfl)

theorem sendPacketS_world (p : RCONPacket) (s : Sys) :
    (sendPacketS p s).2.world = s.world := by
  unfold sendPacketS
  split
  · rfl
  · dsimp only
    split <;> rfl

theorem receivePacketS_sent (s : Sys) : (receivePacketS s).2.sent = s.sent := by
  unfold receivePacketS
  split
  · rfl
  · split <;>
      first
        | rfl
        | (dsimp only
           split <;>
             first
               | rfl
               | (split <;>
                   first
                     | rfl
                     | (split <;> rfl)))

theorem receivePacketS_world (s : Sys) : (receivePacketS s).2.world = s.world := by
  unfold receivePacketS
  split
  · rfl
  · split <;>
      first
        | rfl
        | (dsimp only
           split <;>
             first
               | rfl
               | (split <;>
                   first
                     | rfl
                     | (split <;> rfl)))

theorem execLoopGo_sent (rid : Int) (fuel : Nat) : ∀ (s : Sys),
    (execLoopGo rid fuel s).2.sent = s.sent := by
  induction fuel with
  | zero => intro s; rfl
  | succ g ih =>
    intro s
    simp only [execLoopGo]
    cases hr : receivePacketS s with
    | mk r1 s1 =>
      have hs := receivePacketS_sent s
      rw [hr] at hs
      cases r1 with
      | error e => exact hs
      | ok r =>
        dsimp only
        split_ifs
        · rw [ih s1]; exact hs
        · exact hs

theorem execLoopGo_world (rid : Int) (fuel : Nat) : ∀ (s : Sys),
    (execLoopGo rid fuel s).2.world = s.world := by
  induction fuel with
  | zero => intro s; rfl
  | succ g ih =>
    intro s
    simp only [execLoopGo]
    cases hr : receivePacketS s with
    | mk r1 s1 =>
      have hs := receivePacketS_world s
      rw [hr] at hs
      cases r1 with
      | error e => exact hs
      | ok r =>
        dsimp only
        split_ifs
        · rw [ih s1]; exact hs
        · exact hs

theorem executeAttempt_cmdCount (command : String) (s : Sys) :
    cmdCount (executeAttempt command s).2.sent ≤ cmdCount s.sent + 1 := by
  unfold executeAttempt
  dsimp only [nextRequestIdS]
  cases hsend : sendPacketS ⟨((nextRequestId s.cs.requestId : Nat) : Int), 2, command⟩
      { s with cs := { s.cs with requestId := nextRequestId s.cs.requestId } } with
  | mk r1 s2 =>
    have hs := sendPacketS_sent ⟨((nextRequestId s.cs.requestId : Nat) : Int), 2, command⟩
      { s with cs := { s.cs with requestId := nextRequestId s.cs.requestId } }
    rw [hsend] at hs
    cases r1 with
    | error e =>
      dsimp only
      rcases hs with hs | hs <;> rw [hs] <;> simp [cmdCount_append, cmdCount]
    | ok u =>
      dsimp only
      rw [show (execLoop ((nextRequestId s.cs.requestId : Nat) : Int) s2).2.sent
        = s2.sent from execLoopGo_sent _ _ s2]
      rcases hs with hs | hs <;> rw [hs] <;> simp [cmdCount_append, cmdCount]

theorem authCheck_sent (aid : Nat) (r : RCONPacket) (s : Sys) :
    (authCheck aid r s).2.sent = s.sent := by
  unfold authCheck
  split_ifs <;> rfl

theorem sendPacketS_cfg (p : RCONPacket) (s : Sys) :
    (sendPacketS p s).2.cfg = s.cfg := by
  unfold sendPacketS
  split
  · rfl
  · dsimp only
    split <;> rfl

theorem receivePacketS_cfg (s : Sys) : (receivePacketS s).2.cfg = s.cfg := by
  unfold receivePacketS
  split
  · rfl
  · split <;>
      first
        | rfl
        | (dsimp only
           split <;>
             first
               | rfl
               | (split <;>
                   first
                     | rfl
                     | (split <;> rfl)))

theorem execLoopGo_cfg (rid : Int) (fuel : Nat) : ∀ (s : Sys),
    (execLoopGo rid fuel s).2.cfg = s.cfg := by
  induction fuel with
  | zero => intro s; rfl
  | succ g ih =>
    intro s
    simp only [execLoopGo]
    cases hr : receivePacketS s with
    | mk r1 s1 =>
      have hs := receivePacketS_cfg s
      rw [hr] at hs
      cases r1 with
      | error e => exact hs
      | ok r =>
        dsimp only
        split_ifs
        · rw [ih s1]; exact hs
        · exact hs

theorem executeAttempt_cfg (command : String) (s : Sys) :
    (executeAttempt command s).2.cfg = s.cfg := by
  unfold executeAttempt
  dsimp only [nextRequestIdS]
  cases hsend : sendPacketS ⟨((nextRequestId s.cs.requestId : Nat) : Int), 2, command⟩
      { s with cs := { s.cs with requestId := nextRequestId s.cs.requestId } } with
  | mk r1 s2 =>
    have hs := sendPacketS_cfg ⟨((nextRequestId s.cs.requestId : Nat) : Int), 2, command⟩
      { s with cs := { s.cs with requestId := nextRequestId s.cs.requestId } }
    rw [hsend] at hs
    cases r1 with
    | error e => exact hs
    | ok u =>
      dsimp only
      rw [show (execLoop ((nextRequestId s.cs.requestId : Nat) : Int) s2).2.cfg
        = s2.cfg from execLoopGo_cfg _ _ s2]
      exact hs

/-- Flags out of `_send_packet`: preserved unless the drain raised
`OSError`, in which case the surfaced error is a connection error. -/
theorem sendPacketS_cs (p : RCONPacket) (s : Sys) :
    ((sendPacketS p s).2.cs.connected = s.cs.connected ∧
      (sendPacketS p s).2.cs.authenticated = s.cs.authenticated) ∨
    (∃ m, (sendPacketS p s).1 = .error (.connErr m)) := by
  unfold sendPacketS
  split
  · right; exact ⟨_, rfl⟩
  · dsimp only
    split
    · left; exact ⟨rfl, rfl⟩
    · left; exact ⟨rfl, rfl⟩
    · right; exact ⟨_, rfl⟩

/-- Flags out of `_receive_packet`: preserved unless the surfaced error is
a connection error (closed stream or read `OSError`). -/
theorem receivePacketS_cs (s : Sys) :
    ((receivePacketS s).2.cs.connected = s.cs.connected ∧
      (receivePacketS s).2.cs.authenticated = s.cs.authenticated) ∨
    (∃ m, (receivePacketS s).1 = .error (.connErr m)) := by
  unfold receivePacketS
  split
  · right; exact ⟨_, rfl⟩
  · split
    · left; exact ⟨rfl, rfl⟩
    · right; exact ⟨_, rfl⟩
    · right; exact ⟨_, rfl⟩
    · dsimp only
      split
      · left; exact ⟨rfl, rfl⟩
      · split
        · left; exact ⟨rfl, rfl⟩
        · right; exact ⟨_, rfl⟩
        · right; exact ⟨_, rfl⟩
        · split
          · left; exact ⟨rfl, rfl⟩
          · left; exact ⟨rfl, rfl⟩

theorem execLoopGo_cs (rid : Int) (fuel : Nat) : ∀ (s : Sys),
    ((execLoopGo rid fuel s).2.cs.connected = s.cs.connected ∧
      (execLoopGo rid fuel s).2.cs.authenticated = s.cs.authenticated) ∨
    (∃ m, (execLoopGo rid fuel s).1 = .error (.connErr m)) := by
  induction fuel with
  | zero => intro s; right; exact ⟨_, rfl⟩
  | succ g ih =>
    intro s
    simp only [execLoopGo]
    cases hr : receivePacketS s with
    | mk r1 s1 =>
      have hs := receivePacketS_cs s
      rw [hr] at hs
      cases r1 with
      | error e =>
        dsimp only at hs ⊢
        rcases hs with hs | ⟨m, hm⟩
        · left; exact hs
        · right; exact ⟨m, by injection hm with hm; rw [hm]⟩
      | ok r =>
        dsimp only at hs ⊢
        rcases hs with hs | ⟨m, hm⟩
        · split_ifs
          · rcases ih s1 with ih1 | ⟨m, hm⟩
            · left; exact ⟨hs.1 ▸ ih1.1, hs.2 ▸ ih1.2⟩
            · right; exact ⟨m, hm⟩
          · left; exact hs
        · cases hm


theorem authBody_cmdCount (s : Sys) :
    cmdCount (authBody s).2.sent = cmdCount s.sent := by
  unfold authBody
  dsimp only [nextRequestIdS]
  cases hsend : sendPacketS ⟨((nextRequestId s.cs.requestId : Nat) : Int), 3,
      ({ s with cs := { s.cs with requestId := nextRequestId s.cs.requestId } } : Sys).cfg.password⟩
      { s with cs := { s.cs with requestId := nextRequestId s.cs.requestId } } with
  | mk r1 s2 =>
    have h1 := sendPacketS_sent ⟨((nextRequestId s.cs.requestId : Nat) : Int), 3,
      ({ s with cs := { s.cs with requestId := nextRequestId s.cs.requestId } } : Sys).cfg.password⟩
      { s with cs := { s.cs with requestId := nextRequestId s.cs.requestId } }
    rw [hsend] at h1
    have hcount : cmdCount s2.sent = cmdCount s.sent := by
      rcases h1 with h1 | h1 <;> rw [h1] <;> simp [cmdCount_append, cmdCount]
    cases r1 with
    | error e => exact hcount
    | ok u =>
      dsimp only
      cases hrecv : receivePacketS s2 with
      | mk r2 s3 =>
        have h2 := receivePacketS_sent s2
        rw [hrecv] at h2
        cases r2 with
        | error e => dsimp only; rw [h2]; exact hcount
        | ok r =>
          dsimp only
          split_ifs
          · cases hrecv2 : receivePacketS s3 with
            | mk r3 s4 =>
              have h3 := receivePacketS_sent s3
              rw [hrecv2] at h3
              cases r3 with
              | error e => dsimp only; rw [h3, h2]; exact hcount
              | ok r2 =>
                dsimp only
                rw [authCheck_sent, h3, h2]
                exact hcount
          · rw [authCheck_sent, h2]
            exact hcount

theorem authenticateS_cmdCount (s : Sys) :
    cmdCount (authenticateS s).2.sent = cmdCount s.sent := by
  unfold authenticateS
  cases hb : authBody s with
  | mk r1 s1 =>
    have h1 := authBody_cmdCount s
    rw [hb] at h1
    cases r1 with
    | error e => exact h1
    | ok u => exact h1

theorem connectInternalS_cmdCount (s : Sys) :
    cmdCount (connectInternalS s).2.sent = cmdCount s.sent := by
  unfold connectInternalS
  split_ifs
  · rfl
  · split
    · rfl
    · dsimp only
      split <;> first | rfl | exact authenticateS_cmdCount _

theorem disconnectInternalS_sent (s : Sys) :
    (disconnectInternalS s).sent = s.sent := by
  unfold disconnectInternalS
  split <;> rfl

theorem reconnectLoop_cmdCount (n : Nat) : ∀ (s : Sys),
    cmdCount ((reconnectLoop n s).2).sent = cmdCount s.sent := by
  induction n with
  | zero => intro s; rfl
  | succ m ih =>
    intro s
    simp only [reconnectLoop]
    cases hc : connectInternalS (disconnectInternalS s) with
    | mk r1 s2 =>
      have h1 := connectInternalS_cmdCount (disconnectInternalS s)
      rw [hc, disconnectInternalS_sent] at h1
      cases r1 with
      | ok u => exact h1
      | error e => dsimp only; rw [ih s2]; exact h1

theorem reconnectS_cmdCount (s : Sys) :
    cmdCount ((reconnectS s).2).sent = cmdCount s.sent :=
  reconnectLoop_cmdCount s.cfg.maxReconnectAttempts s

theorem ensureConnected_cmdCount (retry : Bool) (s : Sys) :
    cmdCount ((ensureConnected retry s).2).sent = cmdCount s.sent := by
  unfold ensureConnected
  split_ifs
  · rfl
  · cases hr : reconnectS s with
    | mk b s1 =>
      have h1 := reconnectS_cmdCount s
      rw [hr] at h1
      cases b <;> exact h1
  · rfl

theorem executeBody_cmdCount (command : String) (retry : Bool)
    (onRetry : Sys → Except RCONErr String × Sys) (s : Sys) (k : Nat)
    (hk : ∀ s', cmdCount (onRetry s').2.sent ≤ cmdCount s'.sent + k) :
    cmdCount (executeBody command retry onRetry s).2.sent ≤ cmdCount s.sent + 1 + k := by
  unfold executeBody
  cases he : ensureConnected retry s with
  | mk r0 s0 =>
    have h0 := ensureConnected_cmdCount retry s
    rw [he] at h0
    dsimp only at h0
    cases r0 with
    | error e => dsimp only; omega
    | ok u =>
      dsimp only
      cases ha : executeAttempt command s0 with
      | mk r2 s2 =>
        have h2 := executeAttempt_cmdCount command s0
        rw [ha] at h2
        dsimp only at h2
        cases r2 with
        | ok v => dsimp only; omega
        | error e =>
          cases e with
          | connErr m =>
            dsimp only
            split_ifs
            · cases hrc : reconnectS (clearFlags s2) with
              | mk b s4 =>
                have h4 := reconnectS_cmdCount (clearFlags s2)
                rw [hrc] at h4
                dsimp only at h4
                cases b with
                | true =>
                  dsimp only
                  have h5 := hk s4
                  simp only [clearFlags] at h4
                  omega
                | false => dsimp only; simp only [clearFlags] at h4; omega
            · simp only [clearFlags]; omega
          | timeoutErr m =>
            dsimp only
            split_ifs
            · cases hrc : reconnectS (clearFlags s2) with
              | mk b s4 =>
                have h4 := reconnectS_cmdCount (clearFlags s2)
                rw [hrc] at h4
                dsimp only at h4
                cases b with
                | true =>
                  dsimp only
                  have h5 := hk s4
                  simp only [clearFlags] at h4
                  omega
                | false => dsimp only; simp only [clearFlags] at h4; omega
            · dsimp only; omega
          | protocolErr m => dsimp only; omega
          | authErr m => dsimp only; omega
          | commandErr m => dsimp only; omega

/-- The command packet is written at most twice by one `execute()` call:
once by the attempt, at most once more by the single `retry=False`
re-execution. -/
theorem executeInternalS_cmdCount (command : String) (retry : Bool) (s : Sys) :
    cmdCount (executeInternalS command retry s).2.sent ≤ cmdCount s.sent + 2 := by
  unfold executeInternalS
  have hinner : ∀ s', cmdCount ((executeBody command false
      (fun s'' => (.error (.connErr "Non connecté au serveur"), s'')) s')).2.sent ≤
      cmdCount s'.sent + 1 := by
    intro s'
    have := executeBody_cmdCount command false
      (fun s'' => (.error (.connErr "Non connecté au serveur"), s'')) s' 0
      (fun s'' => by simp)
    omega
  have := executeBody_cmdCount command retry
    (fun s4 => executeBody command false
      (fun s' => (.error (.connErr "Non connecté au serveur"), s')) s4) s 1 hinner
  omega

theorem executeAttempt_cs (command : String) (s : Sys) :
    ((executeAttempt command s).2.cs.connected = s.cs.connected ∧
      (executeAttempt command s).2.cs.authenticated = s.cs.authenticated) ∨
    (∃ m, (executeAttempt command s).1 = .error (.connErr m)) := by
  unfold executeAttempt
  dsimp only [nextRequestIdS]
  cases hsend : sendPacketS ⟨((nextRequestId s.cs.requestId : Nat) : Int), 2, command⟩
      { s with cs := { s.cs with requestId := nextRequestId s.cs.requestId } } with
  | mk r1 s2 =>
    have hs := sendPacketS_cs ⟨((nextRequestId s.cs.requestId : Nat) : Int), 2, command⟩
      { s with cs := { s.cs with requestId := nextRequestId s.cs.requestId } }
    rw [hsend] at hs
    dsimp only at hs
    cases r1 with
    | error e =>
      dsimp only
      rcases hs with hs | ⟨m, hm⟩
      · left; exact hs
      · right; exact ⟨m, by injection hm with hm; rw [hm]⟩
    | ok u =>
      dsimp only
      rcases hs with hs | ⟨m, hm⟩
      · rcases execLoopGo_cs ((nextRequestId s.cs.requestId : Nat) : Int)
          (streamLen s2 + 1) s2 with hl | ⟨m, hm⟩
        · left; exact ⟨hs.1 ▸ hl.1, hs.2 ▸ hl.2⟩
        · right; exact ⟨m, hm⟩
      · cases hm

/-! ## Symbolic evaluation of the authentication handshake -/

/-- When the first response frame is not a `ResponseValue` packet, it is
the authoritative response: `authBody` reduces to `authCheck` on it. -/
theorem authBody_eval_direct (cfg : ClientCfg) (rid : Nat) (cb ab : Bool)
    (p1 : RCONPacket) (tl : List Nat) (e : Bool) (w : List ConnectOutcome)
    (sn : List RCONPacket) (hwf : wfPacket p1) (hty : p1.packet_type ≠ 0) :
    authBody ⟨cfg, ⟨rid, cb, ab⟩, some ⟨p1.encode ++ tl, e, [], []⟩, w, sn⟩ =
      authCheck (nextRequestId rid) p1
        ⟨cfg, ⟨nextRequestId rid, cb, ab⟩, some ⟨tl, e, [], []⟩, w,
          sn ++ [⟨((nextRequestId rid : Nat) : Int), 3, cfg.password⟩]⟩ := by
  have hsend := sendPacketS_clean ⟨((nextRequestId rid : Nat) : Int), 3, cfg.password⟩
    cfg ⟨nextRequestId rid, cb, ab⟩ (p1.encode ++ tl) e [] w sn
  have hrecv := receivePacketS_frame p1 cfg ⟨nextRequestId rid, cb, ab⟩ tl e [] w
    (sn ++ [⟨((nextRequestId rid : Nat) : Int), 3, cfg.password⟩]) hwf
  simp only [authBody, nextRequestIdS, hsend, hrecv, if_neg hty]

/-- When the first response frame is a `ResponseValue` packet (empty or
not), it is discarded and the next frame is authoritative. -/
theorem authBody_eval_discard (cfg : ClientCfg) (rid : Nat) (cb ab : Bool)
    (p1 p2 : RCONPacket) (tl : List Nat) (e : Bool) (w : List ConnectOutcome)
    (sn : List RCONPacket) (hwf1 : wfPacket p1) (hwf2 : wfPacket p2)
    (hty : p1.packet_type = 0) :
    authBody ⟨cfg, ⟨rid, cb, ab⟩,
        some ⟨p1.encode ++ (p2.encode ++ tl), e, [], []⟩, w, sn⟩ =
      authCheck (nextRequestId rid) p2
        ⟨cfg, ⟨nextRequestId rid, cb, ab⟩, some ⟨tl, e, [], []⟩, w,
          sn ++ [⟨((nextRequestId rid : Nat) : Int), 3, cfg.password⟩]⟩ := by
  have hsend := sendPacketS_clean ⟨((nextRequestId rid : Nat) : Int), 3, cfg.password⟩
    cfg ⟨nextRequestId rid, cb, ab⟩ (p1.encode ++ (p2.encode ++ tl)) e [] w sn
  have hrecv := receivePacketS_frame p1 cfg ⟨nextRequestId rid, cb, ab⟩ (p2.encode ++ tl)
    e [] w (sn ++ [⟨((nextRequestId rid : Nat) : Int), 3, cfg.password⟩]) hwf1
  have hrecv2 := receivePacketS_frame p2 cfg ⟨nextRequestId rid, cb, ab⟩ tl
    e [] w (sn ++ [⟨((nextRequestId rid : Nat) : Int), 3, cfg.password⟩]) hwf2
  simp only [authBody, nextRequestIdS, hsend, hrecv, hrecv2, if_pos hty]

/-- The request id issued for the handshake is non-negative, so the `-1`
check can only fire on a server-sent `-1`. -/
theorem authCheck_reject (aid : Nat) (p : RCONPacket) (s : Sys)
    (h : p.request_id = -1) :
    authCheck aid p s = (.error (.authErr "Mot de passe RCON incorrect"),
      { s with cs := { s.cs with connected := false } }) := by
  unfold authCheck
  rw [if_pos h]

theorem authCheck_accept (aid : Nat) (p : RCONPacket) (s : Sys)
    (h : p.request_id = ((aid : Nat) : Int)) :
    authCheck aid p s = (.ok (), { s with cs := { s.cs with authenticated := true } }) := by
  unfold authCheck
  rw [if_neg (by omega), if_neg (by simp [h])]

theorem authCheck_mismatch (aid : Nat) (p : RCONPacket) (s : Sys)
    (h1 : p.request_id ≠ -1) (h2 : p.request_id ≠ ((aid : Nat) : Int)) :
    authCheck aid p s = (.error (.authErr "ID de réponse invalide"),
      { s with cs := { s.cs with connected := false } }) := by
  unfold authCheck
  rw [if_neg h1, if_pos h2]

/-- Auth rejection (`request_id == -1`), first packet authoritative. -/
theorem authenticateS_reject_direct (cfg : ClientCfg) (rid : Nat) (cb ab : Bool)
    (p1 : RCONPacket) (tl : List Nat) (e : Bool) (w : List ConnectOutcome)
    (sn : List RCONPacket) (hwf : wfPacket p1) (hty : p1.packet_type ≠ 0)
    (hid : p1.request_id = -1) :
    authenticateS ⟨cfg, ⟨rid, cb, ab⟩, some ⟨p1.encode ++ tl, e, [], []⟩, w, sn⟩ =
      (.error (.authErr "Mot de passe RCON incorrect"),
        ⟨cfg, ⟨nextRequestId rid, false, false⟩, some ⟨tl, e, [], []⟩, w,
          sn ++ [⟨((nextRequestId rid : Nat) : Int), 3, cfg.password⟩]⟩) := by
  unfold authenticateS
  rw [authBody_eval_direct cfg rid cb ab p1 tl e w sn hwf hty,
    authCheck_reject _ _ _ hid]
  simp [clearFlags]

/-- Auth rejection after discarding a leading `ResponseValue` packet. -/
theorem authenticateS_reject_discard (cfg : ClientCfg) (rid : Nat) (cb ab : Bool)
    (p0 p1 : RCONPacket) (tl : List Nat) (e : Bool) (w : List ConnectOutcome)
    (sn : List RCONPacket) (hwf0 : wfPacket p0) (hwf : wfPacket p1)
    (hty0 : p0.packet_type = 0) (hid : p1.request_id = -1) :
    authenticateS ⟨cfg, ⟨rid, cb, ab⟩,
        some ⟨p0.encode ++ (p1.encode ++ tl), e, [], []⟩, w, sn⟩ =
      (.error (.authErr "Mot de passe RCON incorrect"),
        ⟨cfg, ⟨nextRequestId rid, false, false⟩, some ⟨tl, e, [], []⟩, w,
          sn ++ [⟨((nextRequestId rid : Nat) : Int), 3, cfg.password⟩]⟩) := by
  unfold authenticateS
  rw [authBody_eval_discard cfg rid cb ab p0 p1 tl e w sn hwf0 hwf hty0,
    authCheck_reject _ _ _ hid]
  simp [clearFlags]

/-- Successful handshake, first packet authoritative. -/
theorem authenticateS_ok_direct (cfg : ClientCfg) (rid : Nat) (cb ab : Bool)
    (p1 : RCONPacket) (tl : List Nat) (e : Bool) (w : List ConnectOutcome)
    (sn : List RCONPacket) (hwf : wfPacket p1) (hty : p1.packet_type ≠ 0)
    (hid : p1.request_id = ((nextRequestId rid : Nat) : Int)) :
    authenticateS ⟨cfg, ⟨rid, cb, ab⟩, some ⟨p1.encode ++ tl, e, [], []⟩, w, sn⟩ =
      (.ok (), ⟨cfg, ⟨nextRequestId rid, cb, true⟩, some ⟨tl, e, [], []⟩, w,
        sn ++ [⟨((nextRequestId rid : Nat) : Int), 3, cfg.password⟩]⟩) := by
  unfold authenticateS
  rw [authBody_eval_direct cfg rid cb ab p1 tl e w sn hwf hty,
    authCheck_accept _ _ _ hid]

/-- Successful handshake after discarding a leading `ResponseValue`
packet. -/
theorem authenticateS_ok_discard (cfg : ClientCfg) (rid : Nat) (cb ab : Bool)
    (p0 p1 : RCONPacket) (tl : List Nat) (e : Bool) (w : List ConnectOutcome)
    (sn : List RCONPacket) (hwf0 : wfPacket p0) (hwf : wfPacket p1)
    (hty0 : p0.packet_type = 0)
    (hid : p1.request_id = ((nextRequestId rid : Nat) : Int)) :
    authenticateS ⟨cfg, ⟨rid, cb, ab⟩,
        some ⟨p0.encode ++ (p1.encode ++ tl), e, [], []⟩, w, sn⟩ =
      (.ok (), ⟨cfg, ⟨nextRequestId rid, cb, true⟩, some ⟨tl, e, [], []⟩, w,
        sn ++ [⟨((nextRequestId rid : Nat) : Int), 3, cfg.password⟩]⟩) := by
  unfold authenticateS
  rw [authBody_eval_discard cfg rid cb ab p0 p1 tl e w sn hwf0 hwf hty0,
    authCheck_accept _ _ _ hid]

/-- Running `connect()` against a server that rejects the credential: one auth
packet is sent, the error is an authentication error, the state is left
disconnected, and no further connection attempt is consumed. -/
theorem connectInternalS_reject_direct (cfg : ClientCfg) (rid : Nat) (ab : Bool)
    (tr0 : Option Transport) (p1 : RCONPacket) (tl : List Nat) (e : Bool)
    (w : List ConnectOutcome) (sn : List RCONPacket) (hwf : wfPacket p1)
    (hty : p1.packet_type ≠ 0) (hid : p1.request_id = -1) :
    connectInternalS ⟨cfg, ⟨rid, false, ab⟩, tr0,
        (.ok ⟨p1.encode ++ tl, e, [], []⟩) :: w, sn⟩ =
      (.error (.authErr "Mot de passe RCON incorrect"),
        ⟨cfg, ⟨nextRequestId rid, false, false⟩, some ⟨tl, e, [], []⟩, w,
          sn ++ [⟨((nextRequestId rid : Nat) : Int), 3, cfg.password⟩]⟩) := by
  unfold connectInternalS
  rw [if_neg (by simp)]
  dsimp only
  exact authenticateS_reject_direct cfg rid true ab p1 tl e w sn hwf hty hid

/-- Running `connect()` against a server that accepts the credential. -/
theorem connectInternalS_ok_direct (cfg : ClientCfg) (rid : Nat) (ab : Bool)
    (tr0 : Option Transport) (p1 : RCONPacket) (tl : List Nat) (e : Bool)
    (w : List ConnectOutcome) (sn : List RCONPacket) (hwf : wfPacket p1)
    (hty : p1.packet_type ≠ 0)
    (hid : p1.request_id = ((nextRequestId rid : Nat) : Int)) :
    connectInternalS ⟨cfg, ⟨rid, false, ab⟩, tr0,
        (.ok ⟨p1.encode ++ tl, e, [], []⟩) :: w, sn⟩ =
      (.ok (), ⟨cfg, ⟨nextRequestId rid, true, true⟩, some ⟨tl, e, [], []⟩, w,
        sn ++ [⟨((nextRequestId rid : Nat) : Int), 3, cfg.password⟩]⟩) := by
  unfold connectInternalS
  rw [if_neg (by simp)]
  dsimp only
  exact authenticateS_ok_direct cfg rid true ab p1 tl e w sn hwf hty hid

/-- A scripted connection whose server rejects the credential: the
handshake response carries `request_id = -1`. -/
def authFailT : Transport := ⟨RCONPacket.encode ⟨-1, 2, ""⟩, true, [], []⟩

theorem authFailT_eq : authFailT =
    ⟨RCONPacket.encode ⟨-1, 2, ""⟩ ++ [], true, [], []⟩ := by
  simp [authFailT]

/-- A reconnection attempt against a rejecting server fails with an
authentication error that the loop catches; the loop then moves on,
consuming every scripted connection and sending one auth packet per
attempt. -/
theorem reconnectLoop_authFail : ∀ (n : Nat) (cfg : ClientCfg) (rid : Nat)
    (ab : Bool) (tr0 : Option Transport) (w : List ConnectOutcome)
    (sn : List RCONPacket),
    ∃ s', reconnectLoop n ⟨cfg, ⟨rid, false, ab⟩, tr0,
        List.replicate n (ConnectOutcome.ok authFailT) ++ w, sn⟩ = (false, s') ∧
      s'.world = w ∧ s'.sent.length = sn.length + n := by
  intro n
  induction n with
  | zero =>
    intro cfg rid ab tr0 w sn
    exact ⟨_, rfl, rfl, rfl⟩
  | succ m ih =>
    intro cfg rid ab tr0 w sn
    rw [List.replicate_succ, List.cons_append]
    simp only [reconnectLoop]
    cases tr0 with
    | none =>
      dsimp only [disconnectInternalS]
      nth_rewrite 1 [authFailT_eq]
      rw [connectInternalS_reject_direct cfg rid ab none ⟨-1, 2, ""⟩ [] true
          (List.replicate m (ConnectOutcome.ok authFailT) ++ w) sn
          (by decide) (by decide) rfl]
      dsimp only
      obtain ⟨s', h1, h2, h3⟩ := ih cfg (nextRequestId rid) false
        (some ⟨[], true, [], []⟩) w
        (sn ++ [⟨((nextRequestId rid : Nat) : Int), 3, cfg.password⟩])
      refine ⟨s', h1, h2, ?_⟩
      rw [h3]
      simp
      omega
    | some t =>
      dsimp only [disconnectInternalS, clearFlags]
      nth_rewrite 1 [authFailT_eq]
      rw [connectInternalS_reject_direct cfg rid false none ⟨-1, 2, ""⟩ [] true
          (List.replicate m (ConnectOutcome.ok authFailT) ++ w) sn
          (by decide) (by decide) rfl]
      dsimp only
      obtain ⟨s', h1, h2, h3⟩ := ih cfg (nextRequestId rid) false
        (some ⟨[], true, [], []⟩) w
        (sn ++ [⟨((nextRequestId rid : Nat) : Int), 3, cfg.password⟩])
      refine ⟨s', h1, h2, ?_⟩
      rw [h3]
      simp
      omega

/-- A reconnection whose first scripted connection succeeds and
authenticates returns after exactly one cycle. -/
theorem reconnectLoop_ok_first (m : Nat) (cfg : ClientCfg) (rid : Nat)
    (ab : Bool) (tr0 : Option Transport) (p1 : RCONPacket) (tl : List Nat)
    (e : Bool) (w : List ConnectOutcome) (sn : List RCONPacket)
    (hwf : wfPacket p1) (hty : p1.packet_type ≠ 0)
    (hid : p1.request_id = ((nextRequestId rid : Nat) : Int)) :
    reconnectLoop (m + 1) ⟨cfg, ⟨rid, false, ab⟩, tr0,
        (ConnectOutcome.ok ⟨p1.encode ++ tl, e, [], []⟩) :: w, sn⟩ =
      (true, ⟨cfg, ⟨nextRequestId rid, true, true⟩, some ⟨tl, e, [], []⟩, w,
        sn ++ [⟨((nextRequestId rid : Nat) : Int), 3, cfg.password⟩]⟩) := by
  simp only [reconnectLoop]
  cases tr0 with
  | none =>
    dsimp only [disconnectInternalS]
    rw [connectInternalS_ok_direct cfg rid ab none p1 tl e w sn hwf hty hid]
  | some t =>
    dsimp only [disconnectInternalS, clearFlags]
    rw [connectInternalS_ok_direct cfg rid false none p1 tl e w sn hwf hty hid]

/-- The `connect()` rejection variant with a leading `ResponseValue` frame. -/
theorem connectInternalS_reject_discard (cfg : ClientCfg) (rid : Nat) (ab : Bool)
    (tr0 : Option Transport) (p0 p1 : RCONPacket) (tl : List Nat) (e : Bool)
    (w : List ConnectOutcome) (sn : List RCONPacket) (hwf0 : wfPacket p0)
    (hwf : wfPacket p1) (hty0 : p0.packet_type = 0) (hid : p1.request_id = -1) :
    connectInternalS ⟨cfg, ⟨rid, false, ab⟩, tr0,
        (.ok ⟨p0.encode ++ (p1.encode ++ tl), e, [], []⟩) :: w, sn⟩ =
      (.error (.authErr "Mot de passe RCON incorrect"),
        ⟨cfg, ⟨nextRequestId rid, false, false⟩, some ⟨tl, e, [], []⟩, w,
          sn ++ [⟨((nextRequestId rid : Nat) : Int), 3, cfg.password⟩]⟩) := by
  unfold connectInternalS
  rw [if_neg (by simp)]
  dsimp only
  exact authenticateS_reject_discard cfg rid true ab p0 p1 tl e w sn hwf0 hwf hty0 hid

/-- The check `authCheck` accepts exactly when the echoed id matches the auth id
(the `-1` branch is subsumed: the issued id is non-negative). -/
theorem authCheck_ok_iff (aid : Nat) (p : RCONPacket) (s : Sys) :
    ((authCheck aid p s).1 = .ok ()) ↔ p.request_id = ((aid : Nat) : Int) := by
  unfold authCheck
  split_ifs with h1 h2
  · simp only [reduceCtorEq, false_iff]
    omega
  · simp only [reduceCtorEq, false_iff]
    exact h2
  · simp only [true_iff]
    omega

theorem authCheck_tr (aid : Nat) (p : RCONPacket) (s : Sys) :
    (authCheck aid p s).2.tr = s.tr := by
  unfold authCheck
  split_ifs <;> rfl

/-- The response-collection loop on a stream of well-formed frames returns
the payload of the first frame whose id matches, skipping the others. -/
theorem execLoop_frames (rid : Int) : ∀ (ps : List RCONPacket) (q : RCONPacket)
    (cfg : ClientCfg) (cs : ClientState) (tlb : List Nat) (e : Bool)
    (se : List SendEv) (w : List ConnectOutcome) (sn : List RCONPacket),
    (∀ p ∈ ps, wfPacket p) →
    ps.find? (fun p => p.request_id == rid) = some q →
    ∃ s', execLoop rid ⟨cfg, cs,
        some ⟨ps.flatMap RCONPacket.encode ++ tlb, e, se, []⟩, w, sn⟩ =
      (.ok q.payload, s') := by
  intro ps
  induction ps with
  | nil =>
    intro q cfg cs tlb e se w sn hwf hfind
    simp at hfind
  | cons p ps ih =>
    intro q cfg cs tlb e se w sn hwf hfind
    rw [List.flatMap_cons, List.append_assoc]
    have hrecv := receivePacketS_frame p cfg cs (ps.flatMap RCONPacket.encode ++ tlb)
      e se w sn (hwf p (by simp))
    rw [execLoop_eq, hrecv]
    dsimp only
    by_cases hb : p.request_id = rid
    · have : (p.request_id == rid) = true := by simp [hb]
      rw [List.find?_cons, this] at hfind
      injection hfind with hq
      subst hq
      rw [if_neg (by simp [hb])]
      exact ⟨_, rfl⟩
    · have : (p.request_id == rid) = false := by simp [hb]
      rw [List.find?_cons, this] at hfind
      rw [if_pos hb]
      exact ih q cfg cs tlb e se w sn (fun r hr => hwf r (by simp [hr])) hfind

/-- The attempt body on a fault-free transport: allocate the id, write the
command packet, enter the loop. -/
theorem executeAttempt_clean (command : String) (cfg : ClientCfg) (rid : Nat)
    (cb ab : Bool) (st : List Nat) (e : Bool) (w : List ConnectOutcome)
    (sn : List RCONPacket) :
    executeAttempt command ⟨cfg, ⟨rid, cb, ab⟩, some ⟨st, e, [], []⟩, w, sn⟩ =
      execLoop ((nextRequestId rid : Nat) : Int)
        ⟨cfg, ⟨nextRequestId rid, cb, ab⟩, some ⟨st, e, [], []⟩, w,
          sn ++ [⟨((nextRequestId rid : Nat) : Int), 2, command⟩]⟩ := by
  unfold executeAttempt
  dsimp only [nextRequestIdS]
  rw [sendPacketS_clean]

theorem executeAttempt_world (command : String) (s : Sys) :
    (executeAttempt command s).2.world = s.world := by
  unfold executeAttempt
  dsimp only [nextRequestIdS]
  cases hsend : sendPacketS ⟨((nextRequestId s.cs.requestId : Nat) : Int), 2, command⟩
      { s with cs := { s.cs with requestId := nextRequestId s.cs.requestId } } with
  | mk r1 s2 =>
    have hs := sendPacketS_world ⟨((nextRequestId s.cs.requestId : Nat) : Int), 2, command⟩
      { s with cs := { s.cs with requestId := nextRequestId s.cs.requestId } }
    rw [hsend] at hs
    cases r1 with
    | error e => exact hs
    | ok u =>
      dsimp only
      rw [show (execLoop ((nextRequestId s.cs.requestId : Nat) : Int) s2).2.world
        = s2.world from execLoopGo_world _ _ s2]
      exact hs

/-! ## Claim theorems -/

/-- A helper: `struct.unpack('<i', struct.pack('<i', L))` for an unsigned
byte count `L < 2^32`: the declared size reads back signed. -/
theorem leToInt32_int32LE_ofNat (L : Nat) (h : L < 4294967296) :
    leToInt32 (int32LE ((L : Nat) : Int)) =
      if L < 2147483648 then (L : Int) else (L : Int) - 4294967296 := by
  simp only [leToInt32, int32LE, leNat, toRep32]
  have hm : ((L : Int)) % 4294967296 = (L : Int) := by omega
  rw [hm]
  split_ifs <;> omega

/-- C9: every id issued by `_next_request_id` lies in `[0, 2^31 - 1)` — in
particular below the signed 32-bit maximum and never `-1` — and each id is
the predecessor plus one except at the wraparound point `2^31 - 2`, where
the counter restarts from the bottom of its range. -/
theorem claim_C9_request_ids :
    (∀ r : Nat, nextRequestId r < 2147483647) ∧
    (∀ r : Nat, ((nextRequestId r : Nat) : Int) ≠ -1 ∧
      0 ≤ ((nextRequestId r : Nat) : Int)) ∧
    (∀ r : Nat, r + 1 < 2147483647 → nextRequestId r = r + 1) ∧
    nextRequestId 2147483646 = 0 ∧
    (∀ s : Sys, (nextRequestIdS s).1 = nextRequestId s.cs.requestId) := by
  refine ⟨?_, ?_, ?_, ?_, ?_⟩
  · intro r
    exact Nat.mod_lt _ (by norm_num)
  · intro r
    constructor <;> omega
  · intro r h
    unfold nextRequestId
    omega
  · rfl
  · intro s
    rfl

theorem claim_C9_witness :
    nextRequestId 41 = 42 ∧ nextRequestId 2147483646 = 0 :=
  ⟨claim_C9_request_ids.2.2.1 41 (by norm_num), claim_C9_request_ids.2.2.2.1⟩

/-- C3 (amended): the round trip holds between `encode` and `decode` on the
*body* — the bytes after the 4-byte length prefix — for every signed 32-bit
request id and type and every text payload. -/
theorem claim_C3_roundtrip (rid ty : Int) (pl : String)
    (h1 : -2147483648 ≤ rid) (h2 : rid < 2147483648)
    (h3 : -2147483648 ≤ ty) (h4 : ty < 2147483648) :
    RCONPacket.decode ((RCONPacket.encode ⟨rid, ty, pl⟩).drop 4) =
      .ok ⟨rid, ty, pl⟩ :=
  decode_encode_body rid ty pl h1 h2 h3 h4

theorem claim_C3_witness :
    RCONPacket.decode ((RCONPacket.encode ⟨-5, 2, "liste"⟩).drop 4) =
      .ok ⟨-5, 2, "liste"⟩ :=
  claim_C3_roundtrip (-5) 2 "liste" (by norm_num) (by norm_num) (by norm_num)
    (by norm_num)

/-- C4: the receive path rejects, with a protocol error, every frame whose
body length (the bytes after the 4-byte length prefix) lies outside
`[10, 4096]`; no such frame is decoded into a packet. -/
theorem claim_C4_size_gate (body rest : List Nat) (cfg : ClientCfg)
    (cs : ClientState) (e : Bool) (se : List SendEv) (w : List ConnectOutcome)
    (sn : List RCONPacket) (hlen : body.length < 4294967296)
    (hout : body.length < 10 ∨ body.length > 4096) :
    (receivePacketS ⟨cfg, cs, some ⟨int32LE ((body.length : Nat) : Int) ++
        (body ++ rest), e, se, []⟩, w, sn⟩).1
      = .error (.protocolErr "Taille de paquet invalide") := by
  have hr1 : readexactlyT 4
      (⟨int32LE ((body.length : Nat) : Int) ++ (body ++ rest), e, se, []⟩ : Transport) =
      (.bytes (int32LE ((body.length : Nat) : Int)),
        ⟨body ++ rest, e, se, []⟩) := by
    rw [readexactlyT_clean 4 _ _ _ (by simp [int32LE])]
    rfl
  have hv := leToInt32_int32LE_ofNat body.length hlen
  have hcond : leToInt32 (int32LE ((body.length : Nat) : Int)) < 10 ∨
      leToInt32 (int32LE ((body.length : Nat) : Int)) > 4096 := by
    rw [hv]
    split_ifs <;> omega
  simp only [receivePacketS, hr1, if_pos hcond]

/-- The handshake outcome when the first frame is authoritative: success
iff its echoed id matches, and exactly one frame is consumed. -/
theorem authenticateS_iff_direct (cfg : ClientCfg) (rid : Nat) (cb ab : Bool)
    (p : RCONPacket) (tl : List Nat) (e : Bool) (w : List ConnectOutcome)
    (sn : List RCONPacket) (hwf : wfPacket p) (hty : p.packet_type ≠ 0) :
    (((authenticateS ⟨cfg, ⟨rid, cb, ab⟩, some ⟨p.encode ++ tl, e, [], []⟩,
        w, sn⟩).1 = .ok ()) ↔ p.request_id = ((nextRequestId rid : Nat) : Int)) ∧
    (authenticateS ⟨cfg, ⟨rid, cb, ab⟩, some ⟨p.encode ++ tl, e, [], []⟩,
        w, sn⟩).2.tr = some ⟨tl, e, [], []⟩ := by
  unfold authenticateS
  rw [authBody_eval_direct cfg rid cb ab p tl e w sn hwf hty]
  have hok := authCheck_ok_iff (nextRequestId rid) p
    ⟨cfg, ⟨nextRequestId rid, cb, ab⟩, some ⟨tl, e, [], []⟩, w,
      sn ++ [⟨((nextRequestId rid : Nat) : Int), 3, cfg.password⟩]⟩
  have htr := authCheck_tr (nextRequestId rid) p
    ⟨cfg, ⟨nextRequestId rid, cb, ab⟩, some ⟨tl, e, [], []⟩, w,
      sn ++ [⟨((nextRequestId rid : Nat) : Int), 3, cfg.password⟩]⟩
  cases hc : authCheck (nextRequestId rid) p
      ⟨cfg, ⟨nextRequestId rid, cb, ab⟩, some ⟨tl, e, [], []⟩, w,
        sn ++ [⟨((nextRequestId rid : Nat) : Int), 3, cfg.password⟩]⟩ with
  | mk rr ss =>
    rw [hc] at hok htr
    dsimp only at hok htr ⊢
    cases rr with
    | ok u =>
      cases u
      exact ⟨iff_of_true rfl (hok.mp rfl), htr⟩
    | error er =>
      constructor
      · refine iff_of_false (by simp) (fun h => ?_)
        have := hok.mpr h
        cases this
      · simpa [clearFlags] using htr

/-- The handshake outcome when the first frame has type `ResponseValue`: it
is discarded (whatever its payload), the second frame is authoritative, and
exactly two frames are consumed. -/
theorem authenticateS_iff_discard (cfg : ClientCfg) (rid : Nat) (cb ab : Bool)
    (p0 p1 : RCONPacket) (tl : List Nat) (e : Bool) (w : List ConnectOutcome)
    (sn : List RCONPacket) (hwf0 : wfPacket p0) (hwf : wfPacket p1)
    (hty0 : p0.packet_type = 0) :
    (((authenticateS ⟨cfg, ⟨rid, cb, ab⟩,
        some ⟨p0.encode ++ (p1.encode ++ tl), e, [], []⟩, w, sn⟩).1 = .ok ())
      ↔ p1.request_id = ((nextRequestId rid : Nat) : Int)) ∧
    (authenticateS ⟨cfg, ⟨rid, cb, ab⟩,
        some ⟨p0.encode ++ (p1.encode ++ tl), e, [], []⟩, w, sn⟩).2.tr
      = some ⟨tl, e, [], []⟩ := by
  unfold authenticateS
  rw [authBody_eval_discard cfg rid cb ab p0 p1 tl e w sn hwf0 hwf hty0]
  have hok := authCheck_ok_iff (nextRequestId rid) p1
    ⟨cfg, ⟨nextRequestId rid, cb, ab⟩, some ⟨tl, e, [], []⟩, w,
      sn ++ [⟨((nextRequestId rid : Nat) : Int), 3, cfg.password⟩]⟩
  have htr := authCheck_tr (nextRequestId rid) p1
    ⟨cfg, ⟨nextRequestId rid, cb, ab⟩, some ⟨tl, e, [], []⟩, w,
      sn ++ [⟨((nextRequestId rid : Nat) : Int), 3, cfg.password⟩]⟩
  cases hc : authCheck (nextRequestId rid) p1
      ⟨cfg, ⟨nextRequestId rid, cb, ab⟩, some ⟨tl, e, [], []⟩, w,
        sn ++ [⟨((nextRequestId rid : Nat) : Int), 3, cfg.password⟩]⟩ with
  | mk rr ss =>
    rw [hc] at hok htr
    dsimp only at hok htr ⊢
    cases rr with
    | ok u =>
      cases u
      exact ⟨iff_of_true rfl (hok.mp rfl), htr⟩
    | error er =>
      constructor
      · refine iff_of_false (by simp) (fun h => ?_)
        have := hok.mpr h
        cases this
      · simpa [clearFlags] using htr

/-- C5: a handshake whose authoritative response carries
`request_id == -1` makes `connect()` raise the authentication error, leaves
the connection disconnected, and consumes no further scripted connection
attempt (no reconnection); both with and without the discarded leading
`ResponseValue` frame. -/
theorem claim_C5_bad_credential (cfg : ClientCfg) (rid : Nat) (ab : Bool)
    (tr0 : Option Transport) (p0 p1 : RCONPacket) (tl : List Nat) (e : Bool)
    (w : List ConnectOutcome) (sn : List RCONPacket)
    (hwf : wfPacket p1) (hid : p1.request_id = -1) :
    (p1.packet_type ≠ 0 →
      (connectS ⟨cfg, ⟨rid, false, ab⟩, tr0,
          (.ok ⟨p1.encode ++ tl, e, [], []⟩) :: w, sn⟩).1
        = .error (.authErr "Mot de passe RCON incorrect") ∧
      isConnected (connectS ⟨cfg, ⟨rid, false, ab⟩, tr0,
          (.ok ⟨p1.encode ++ tl, e, [], []⟩) :: w, sn⟩).2 = false ∧
      (connectS ⟨cfg, ⟨rid, false, ab⟩, tr0,
          (.ok ⟨p1.encode ++ tl, e, [], []⟩) :: w, sn⟩).2.world = w) ∧
    (wfPacket p0 → p0.packet_type = 0 →
      (connectS ⟨cfg, ⟨rid, false, ab⟩, tr0,
          (.ok ⟨p0.encode ++ (p1.encode ++ tl), e, [], []⟩) :: w, sn⟩).1
        = .error (.authErr "Mot de passe RCON incorrect") ∧
      isConnected (connectS ⟨cfg, ⟨rid, false, ab⟩, tr0,
          (.ok ⟨p0.encode ++ (p1.encode ++ tl), e, [], []⟩) :: w, sn⟩).2 = false ∧
      (connectS ⟨cfg, ⟨rid, false, ab⟩, tr0,
          (.ok ⟨p0.encode ++ (p1.encode ++ tl), e, [], []⟩) :: w, sn⟩).2.world = w) := by
  constructor
  · intro hty
    have heq := connectInternalS_reject_direct cfg rid ab tr0 p1 tl e w sn hwf hty hid
    refine ⟨?_, ?_, ?_⟩ <;> simp only [connectS, heq] <;> simp [isConnected]
  · intro hwf0 hty0
    have heq := connectInternalS_reject_discard cfg rid ab tr0 p0 p1 tl e w sn
      hwf0 hwf hty0 hid
    refine ⟨?_, ?_, ?_⟩ <;> simp only [connectS, heq] <;> simp [isConnected]

theorem claim_C5_witness :
    (connectS ⟨⟨"pw", true, 3⟩, ⟨0, false, false⟩, none,
        (.ok ⟨(⟨-1, 2, "nope"⟩ : RCONPacket).encode ++ [], true, [], []⟩) ::
          [ConnectOutcome.oserr], []⟩).1
      = .error (.authErr "Mot de passe RCON incorrect") ∧
    isConnected (connectS ⟨⟨"pw", true, 3⟩, ⟨0, false, false⟩, none,
        (.ok ⟨(⟨-1, 2, "nope"⟩ : RCONPacket).encode ++ [], true, [], []⟩) ::
          [ConnectOutcome.oserr], []⟩).2 = false ∧
    (connectS ⟨⟨"pw", true, 3⟩, ⟨0, false, false⟩, none,
        (.ok ⟨(⟨-1, 2, "nope"⟩ : RCONPacket).encode ++ [], true, [], []⟩) ::
          [ConnectOutcome.oserr], []⟩).2.world = [ConnectOutcome.oserr] :=
  (claim_C5_bad_credential ⟨"pw", true, 3⟩ 0 false none ⟨0, 0, ""⟩ ⟨-1, 2, "nope"⟩
    [] true [ConnectOutcome.oserr] [] (by decide) (by decide)).1 (by decide)

/-- C8 counterexample: a *non-empty* leading `ResponseValue` packet whose id
equals the auth id is discarded anyway — the code checks only the packet
type — so the handshake reads on and fails on the second packet, where the
claim says the non-empty first packet should have been authoritative (its
matching id would have made `connect()` succeed). -/
theorem claim_C8_counterexample :
    (⟨1, 0, "x"⟩ : RCONPacket).payload ≠ "" ∧
    (⟨1, 0, "x"⟩ : RCONPacket).packet_type = 0 ∧
    (⟨1, 0, "x"⟩ : RCONPacket).request_id = ((nextRequestId 0 : Nat) : Int) ∧
    (connectS ⟨⟨"pw", true, 3⟩, ⟨0, false, false⟩, none,
        [.ok ⟨RCONPacket.encode ⟨1, 0, "x"⟩ ++ RCONPacket.encode ⟨-1, 2, ""⟩,
          true, [], []⟩], []⟩).1
      = .error (.authErr "Mot de passe RCON incorrect") := by decide

/-- C8 (amended): the handshake discards at most one leading packet, and it
discards the first packet exactly when its *type* is `ResponseValue` —
regardless of whether its payload is empty; a first packet of any other
type is the authoritative response and the second frame is left unread. -/
theorem claim_C8_discard_policy (cfg : ClientCfg) (rid : Nat) (cb ab : Bool)
    (p0 p1 : RCONPacket) (tl : List Nat) (e : Bool) (w : List ConnectOutcome)
    (sn : List RCONPacket) (hwf0 : wfPacket p0) (hwf : wfPacket p1) :
    (p0.packet_type = 0 →
      (((authenticateS ⟨cfg, ⟨rid, cb, ab⟩,
          some ⟨p0.encode ++ (p1.encode ++ tl), e, [], []⟩, w, sn⟩).1 = .ok ())
        ↔ p1.request_id = ((nextRequestId rid : Nat) : Int)) ∧
      (authenticateS ⟨cfg, ⟨rid, cb, ab⟩,
          some ⟨p0.encode ++ (p1.encode ++ tl), e, [], []⟩, w, sn⟩).2.tr
        = some ⟨tl, e, [], []⟩) ∧
    (p0.packet_type ≠ 0 →
      (((authenticateS ⟨cfg, ⟨rid, cb, ab⟩,
          some ⟨p0.encode ++ (p1.encode ++ tl), e, [], []⟩, w, sn⟩).1 = .ok ())
        ↔ p0.request_id = ((nextRequestId rid : Nat) : Int)) ∧
      (authenticateS ⟨cfg, ⟨rid, cb, ab⟩,
          some ⟨p0.encode ++ (p1.encode ++ tl), e, [], []⟩, w, sn⟩).2.tr
        = some ⟨p1.encode ++ tl, e, [], []⟩) := by
  constructor
  · intro hty0
    exact authenticateS_iff_discard cfg rid cb ab p0 p1 tl e w sn hwf0 hwf hty0
  · intro hty0
    exact authenticateS_iff_direct cfg rid cb ab p0 (p1.encode ++ tl) e w sn hwf0 hty0

theorem claim_C8_witness :
    (((authenticateS ⟨⟨"pw", true, 3⟩, ⟨0, true, false⟩,
        some ⟨(⟨5, 0, "junk"⟩ : RCONPacket).encode ++
          ((⟨1, 2, ""⟩ : RCONPacket).encode ++ []), true, [], []⟩, [], []⟩).1
        = .ok ())
      ↔ (⟨1, 2, ""⟩ : RCONPacket).request_id = ((nextRequestId 0 : Nat) : Int)) ∧
    (authenticateS ⟨⟨"pw", true, 3⟩, ⟨0, true, false⟩,
        some ⟨(⟨5, 0, "junk"⟩ : RCONPacket).encode ++
          ((⟨1, 2, ""⟩ : RCONPacket).encode ++ []), true, [], []⟩, [], []⟩).2.tr
      = some ⟨[], true, [], []⟩ :=
  (claim_C8_discard_policy ⟨"pw", true, 3⟩ 0 true false ⟨5, 0, "junk"⟩ ⟨1, 2, ""⟩
    [] true [] [] (by decide) (by decide)).1 (by decide)

/-- C2 counterexample: with auto-reconnect enabled and two scripted
connections that both accept TCP but reject the credential, a single
`execute()` performs *two* connect/authenticate cycles (two auth packets in
the trace) after the first authentication failure, and the error surfaced
to the caller is a connection error, not an authentication error. -/
theorem claim_C2_counterexample :
    (executeS "list" ⟨⟨"pw", true, 2⟩, ⟨0, false, false⟩, none,
        [.ok authFailT, .ok authFailT], []⟩).1
      = .error (.connErr "Impossible de se reconnecter au serveur") ∧
    (executeS "list" ⟨⟨"pw", true, 2⟩, ⟨0, false, false⟩, none,
        [.ok authFailT, .ok authFailT], []⟩).2.sent
      = [⟨1, 3, "pw"⟩, ⟨2, 3, "pw"⟩] := by decide

/-- C2 (amended): an authentication failure during an explicit `connect()`
propagates as an authentication error with no further connect/authenticate
cycle; but inside `execute()`'s reconnection loop an authentication failure
is caught like any other `RCONError`, further cycles run up to
`max_reconnect_attempts` (one auth packet per cycle), and the exhausted
loop surfaces a *connection* error. -/
theorem claim_C2_auth_retry_policy :
    (∀ (cfg : ClientCfg) (rid : Nat) (ab : Bool) (tr0 : Option Transport)
      (p1 : RCONPacket) (tl : List Nat) (e : Bool) (w : List ConnectOutcome)
      (sn : List RCONPacket), wfPacket p1 → p1.packet_type ≠ 0 →
      p1.request_id = -1 →
      (connectS ⟨cfg, ⟨rid, false, ab⟩, tr0,
          (.ok ⟨p1.encode ++ tl, e, [], []⟩) :: w, sn⟩).1
        = .error (.authErr "Mot de passe RCON incorrect") ∧
      (connectS ⟨cfg, ⟨rid, false, ab⟩, tr0,
          (.ok ⟨p1.encode ++ tl, e, [], []⟩) :: w, sn⟩).2.world = w) ∧
    (∀ (pw command : String) (n rid : Nat) (ab : Bool) (tr0 : Option Transport)
      (sn : List RCONPacket),
      ∃ s', executeInternalS command true ⟨⟨pw, true, n⟩, ⟨rid, false, ab⟩, tr0,
          List.replicate n (ConnectOutcome.ok authFailT), sn⟩
        = (.error (.connErr "Impossible de se reconnecter au serveur"), s') ∧
      s'.world = [] ∧ s'.sent.length = sn.length + n) := by
  constructor
  · intro cfg rid ab tr0 p1 tl e w sn hwf hty hid
    have heq := connectInternalS_reject_direct cfg rid ab tr0 p1 tl e w sn hwf hty hid
    exact ⟨by simp only [connectS, heq], by simp only [connectS, heq]⟩
  · intro pw command n rid ab tr0 sn
    obtain ⟨s', h1, h2, h3⟩ := reconnectLoop_authFail n ⟨pw, true, n⟩ rid ab tr0 [] sn
    rw [List.append_nil] at h1
    refine ⟨s', ?_, h2, h3⟩
    unfold executeInternalS executeBody ensureConnected
    rw [if_neg (by simp [isConnected])]
    rw [if_pos (by simp)]
    rw [show reconnectS ⟨⟨pw, true, n⟩, ⟨rid, false, ab⟩, tr0,
        List.replicate n (ConnectOutcome.ok authFailT), sn⟩ =
      (false, s') from h1]

theorem claim_C2_witness :
    ((connectS ⟨⟨"pw", true, 3⟩, ⟨0, false, false⟩, none,
        (.ok ⟨(⟨-1, 2, ""⟩ : RCONPacket).encode ++ [], true, [], []⟩) :: [], []⟩).1
      = .error (.authErr "Mot de passe RCON incorrect")) ∧
    (∃ s', executeInternalS "save-all" true ⟨⟨"hunter2", true, 3⟩, ⟨0, false, false⟩,
        none, List.replicate 3 (ConnectOutcome.ok authFailT), []⟩
      = (.error (.connErr "Impossible de se reconnecter au serveur"), s') ∧
    s'.world = [] ∧ s'.sent.length = ([] : List RCONPacket).length + 3) :=
  ⟨(claim_C2_auth_retry_policy.1 ⟨"pw", true, 3⟩ 0 false none ⟨-1, 2, ""⟩ [] true
      [] [] (by decide) (by decide) (by decide)).1,
    claim_C2_auth_retry_policy.2 "hunter2" "save-all" 3 0 false none []⟩

/-- C10: on a connected client whose transport delivers a sequence of
well-formed frames, a successful `execute()` returns exactly the payload of
the *first* frame whose id equals the command's request id: earlier
mismatched frames are skipped, and no payload after the first match is
ever appended (even when further matching frames follow in the stream). -/
theorem claim_C10_single_packet (command : String) (cfg : ClientCfg) (rid : Nat)
    (ps : List RCONPacket) (q : RCONPacket) (tlb : List Nat) (e : Bool)
    (w : List ConnectOutcome) (sn : List RCONPacket)
    (hwf : ∀ p ∈ ps, wfPacket p)
    (hfind : ps.find? (fun p => p.request_id == ((nextRequestId rid : Nat) : Int))
      = some q) :
    (executeS command ⟨cfg, ⟨rid, true, true⟩,
        some ⟨ps.flatMap RCONPacket.encode ++ tlb, e, [], []⟩, w, sn⟩).1
      = .ok q.payload := by
  obtain ⟨s', hloop⟩ := execLoop_frames ((nextRequestId rid : Nat) : Int) ps q cfg
    ⟨nextRequestId rid, true, true⟩ tlb e [] w
    (sn ++ [⟨((nextRequestId rid : Nat) : Int), 2, command⟩]) hwf hfind
  show (executeBody command true _ _).1 = _
  unfold executeBody
  rw [ensureConnected_connected true _ (by simp [isConnected])]
  dsimp only
  rw [executeAttempt_clean command cfg rid true true
    (ps.flatMap RCONPacket.encode ++ tlb) e w sn]
  rw [hloop]

theorem claim_C10_witness :
    (executeS "list" ⟨⟨"pw", true, 3⟩, ⟨0, true, true⟩,
        some ⟨([(⟨7, 0, "skip"⟩ : RCONPacket), ⟨1, 0, "hit"⟩,
          ⟨1, 0, "extra"⟩] : List RCONPacket).flatMap RCONPacket.encode ++ [],
          true, [], []⟩, [], []⟩).1
      = .ok (⟨1, 0, "hit"⟩ : RCONPacket).payload :=
  claim_C10_single_packet "list" ⟨"pw", true, 3⟩ 0
    [⟨7, 0, "skip"⟩, ⟨1, 0, "hit"⟩, ⟨1, 0, "extra"⟩] ⟨1, 0, "hit"⟩ [] true [] []
    (by decide) (by decide)

/-- C7 counterexample: a timeout mid-receive with auto-reconnect enabled
does *not* propagate — the executor clears the flags, reconnects
(consuming the scripted connection), re-sends the command and returns its
response: three packets are written (command, auth, command) where the
claim requires immediate propagation with no retry and no reconnection. -/
theorem claim_C7_counterexample :
    (executeS "list" ⟨⟨"pw", true, 3⟩, ⟨0, true, true⟩, some ⟨[], false, [], []⟩,
        [.ok ⟨RCONPacket.encode ⟨2, 2, ""⟩ ++ RCONPacket.encode ⟨3, 0, "r2"⟩,
          true, [], []⟩], []⟩).1
      = .ok "r2" ∧
    (executeS "list" ⟨⟨"pw", true, 3⟩, ⟨0, true, true⟩, some ⟨[], false, [], []⟩,
        [.ok ⟨RCONPacket.encode ⟨2, 2, ""⟩ ++ RCONPacket.encode ⟨3, 0, "r2"⟩,
          true, [], []⟩], []⟩).2.world = [] ∧
    (executeS "list" ⟨⟨"pw", true, 3⟩, ⟨0, true, true⟩, some ⟨[], false, [], []⟩,
        [.ok ⟨RCONPacket.encode ⟨2, 2, ""⟩ ++ RCONPacket.encode ⟨3, 0, "r2"⟩,
          true, [], []⟩], []⟩).2.sent
      = [⟨1, 2, "list"⟩, ⟨2, 3, "pw"⟩, ⟨3, 2, "list"⟩] := by decide

/-- C7 (amended): during `execute()` on a connected client, error kinds
other than connection *and timeout* errors — authentication, protocol and
command errors — propagate to the caller immediately, with the attempt's
post-state untouched by any retry or reconnection machinery; and the
attempt itself never consumes a scripted connection. -/
theorem claim_C7_error_propagation :
    (∀ (command : String) (s : Sys) (e : RCONErr) (s2 : Sys),
      isConnected s = true →
      executeAttempt command s = (.error e, s2) →
      (∀ m, e ≠ .connErr m) → (∀ m, e ≠ .timeoutErr m) →
      executeInternalS command true s = (.error e, s2)) ∧
    (∀ (command : String) (s : Sys), (executeAttempt command s).2.world = s.world) := by
  constructor
  · intro command s e s2 hconn hatt hne1 hne2
    show executeBody command true _ s = _
    unfold executeBody
    rw [ensureConnected_connected true s hconn]
    dsimp only
    rw [hatt]
    cases e with
    | connErr m => exact absurd rfl (hne1 m)
    | timeoutErr m => exact absurd rfl (hne2 m)
    | protocolErr m => rfl
    | authErr m => rfl
    | commandErr m => rfl
  · exact executeAttempt_world

theorem claim_C7_witness :
    executeInternalS "list" true ⟨⟨"pw", true, 3⟩, ⟨0, true, true⟩,
        some ⟨int32LE 5000, false, [], []⟩, [ConnectOutcome.oserr], []⟩
      = (.error (.protocolErr "Taille de paquet invalide"),
        ⟨⟨"pw", true, 3⟩, ⟨1, true, true⟩, some ⟨[], false, [], []⟩,
          [ConnectOutcome.oserr], [⟨1, 2, "list"⟩]⟩) :=
  claim_C7_error_propagation.1 "list"
    ⟨⟨"pw", true, 3⟩, ⟨0, true, true⟩, some ⟨int32LE 5000, false, [], []⟩,
      [ConnectOutcome.oserr], []⟩
    (.protocolErr "Taille de paquet invalide")
    ⟨⟨"pw", true, 3⟩, ⟨1, true, true⟩, some ⟨[], false, [], []⟩,
      [ConnectOutcome.oserr], [⟨1, 2, "list"⟩]⟩
    (by decide) (by decide) (fun m h => by cases h) (fun m h => by cases h)

/-- With auto-reconnect disabled, a timeout error leaving `executeBody`
does not modify the connection flags: no path on the way to an
`RCONTimeoutError` clears them. -/
theorem executeBody_timeout_flags (command : String) (retry : Bool)
    (onRetry : Sys → Except RCONErr String × Sys) (s : Sys) (m : String)
    (hauto : s.cfg.autoReconnect = false)
    (hres : (executeBody command retry onRetry s).1 = .error (.timeoutErr m)) :
    (executeBody command retry onRetry s).2.cs.connected = s.cs.connected ∧
    (executeBody command retry onRetry s).2.cs.authenticated = s.cs.authenticated := by
  by_cases hic : isConnected s = true
  · cases ha : executeAttempt command s with
    | mk r2 s2 =>
      have hcfg := executeAttempt_cfg command s
      rw [ha] at hcfg
      dsimp only at hcfg
      have hcs := executeAttempt_cs command s
      rw [ha] at hcs
      dsimp only at hcs
      cases r2 with
      | ok v =>
        have heq : executeBody command retry onRetry s = (.ok v, s2) := by
          unfold executeBody
          rw [ensureConnected_connected retry s hic]
          dsimp only
          rw [ha]
        rw [heq] at hres
        cases hres
      | error e =>
        cases e with
        | connErr m2 =>
          have heq : executeBody command retry onRetry s =
              (.error (.connErr m2), clearFlags s2) := by
            unfold executeBody
            rw [ensureConnected_connected retry s hic]
            dsimp only
            rw [ha]
            dsimp only
            rw [if_neg (by simp [clearFlags, hcfg, hauto])]
          rw [heq] at hres
          cases hres
        | timeoutErr m2 =>
          have heq : executeBody command retry onRetry s =
              (.error (.timeoutErr m2), s2) := by
            unfold executeBody
            rw [ensureConnected_connected retry s hic]
            dsimp only
            rw [ha]
            dsimp only
            rw [if_neg (by simp [hcfg, hauto])]
          rw [heq] at hres ⊢
          rcases hcs with hcs | ⟨m3, hm3⟩
          · exact hcs
          · cases hm3
        | protocolErr m2 =>
          have heq : executeBody command retry onRetry s =
              (.error (.protocolErr m2), s2) := by
            unfold executeBody
            rw [ensureConnected_connected retry s hic]
            dsimp only
            rw [ha]
          rw [heq] at hres
          cases hres
        | authErr m2 =>
          have heq : executeBody command retry onRetry s =
              (.error (.authErr m2), s2) := by
            unfold executeBody
            rw [ensureConnected_connected retry s hic]
            dsimp only
            rw [ha]
          rw [heq] at hres
          cases hres
        | commandErr m2 =>
          have heq : executeBody command retry onRetry s =
              (.error (.commandErr m2), s2) := by
            unfold executeBody
            rw [ensureConnected_connected retry s hic]
            dsimp only
            rw [ha]
          rw [heq] at hres
          cases hres
  · have heq : executeBody command retry onRetry s =
        (.error (.connErr "Non connecté au serveur"), s) := by
      unfold executeBody ensureConnected
      rw [if_neg hic, if_neg (by simp [hauto])]
    rw [heq] at hres
    cases hres

/-- C6 counterexample: with auto-reconnect disabled, a timeout mid-read
propagates to the caller while the client remains marked connected
(`is_connected` stays `true`): the old transport is still considered live,
so further commands can be issued without a fresh `connect()`. -/
theorem claim_C6_counterexample :
    (executeS "list" ⟨⟨"pw", false, 3⟩, ⟨0, true, true⟩,
        some ⟨[], false, [], []⟩, [], []⟩).1
      = .error (.timeoutErr "Timeout réception paquet") ∧
    isConnected (executeS "list" ⟨⟨"pw", false, 3⟩, ⟨0, true, true⟩,
        some ⟨[], false, [], []⟩, [], []⟩).2 = true := by decide

/-- C6 (amended): every error out of `connect()` leaves the connection
`Disconnected`; but a timeout propagating out of `execute()` with
auto-reconnect disabled leaves the connection flags untouched — the client
stays marked connected and is *not* forced to a fresh `connect()`. -/
theorem claim_C6_timeout_state :
    (∀ (s : Sys) (e : RCONErr), (connectS s).1 = .error e →
      isConnected (connectS s).2 = false) ∧
    (∀ (command : String) (s : Sys) (m : String),
      s.cfg.autoReconnect = false →
      (executeInternalS command true s).1 = .error (.timeoutErr m) →
      (executeInternalS command true s).2.cs.connected = s.cs.connected ∧
      (executeInternalS command true s).2.cs.authenticated = s.cs.authenticated) := by
  have key : ∀ s : Sys, (∃ v, (connectInternalS s).1 = .ok v) ∨
      isConnected (connectInternalS s).2 = false := by
    intro s
    unfold connectInternalS
    split_ifs with hc
    · left; exact ⟨(), rfl⟩
    · have hcf : s.cs.connected = false := by
        revert hc
        cases s.cs.connected <;> simp
      split
      · right; simp [isConnected, hcf]
      · dsimp only
        split
        · right; simp [isConnected, hcf]
        · right; simp [isConnected, hcf]
        · unfold authenticateS
          split
          · right; simp [clearFlags, isConnected]
          · left; exact ⟨(), rfl⟩
  constructor
  · intro s e hres
    rcases key s with ⟨v, hok⟩ | hdis
    · rw [show connectS s = connectInternalS s from rfl] at hres
      rw [hok] at hres
      cases hres
    · exact hdis
  · intro command s m hauto hres
    exact executeBody_timeout_flags command true _ s m hauto hres

theorem claim_C6_witness :
    (isConnected (connectS ⟨⟨"pw", true, 3⟩, ⟨0, false, false⟩,
        none, [], []⟩).2 = false) ∧
    ((executeInternalS "list" true ⟨⟨"pw", false, 3⟩, ⟨0, true, true⟩,
        some ⟨[], false, [], []⟩, [], []⟩).2.cs.connected = true ∧
      (executeInternalS "list" true ⟨⟨"pw", false, 3⟩, ⟨0, true, true⟩,
        some ⟨[], false, [], []⟩, [], []⟩).2.cs.authenticated = true) :=
  ⟨claim_C6_timeout_state.1 ⟨⟨"pw", true, 3⟩, ⟨0, false, false⟩, none, [], []⟩
      (.connErr "Impossible de se connecter") (by decide),
    claim_C6_timeout_state.2 "list"
      ⟨⟨"pw", false, 3⟩, ⟨0, true, true⟩, some ⟨[], false, [], []⟩, [], []⟩
      "Timeout réception paquet" (by decide) (by decide)⟩

theorem executeBody_ok (command : String) (retry : Bool)
    (onRetry : Sys → Except RCONErr String × Sys) (s : Sys) (v : String)
    (s2 : Sys) (hconn : isConnected s = true)
    (hatt : executeAttempt command s = (.ok v, s2)) :
    executeBody command retry onRetry s = (.ok v, s2) := by
  unfold executeBody
  rw [ensureConnected_connected retry s hconn]
  dsimp only
  rw [hatt]

theorem executeBody_connErr_retry (command : String)
    (onRetry : Sys → Except RCONErr String × Sys) (s s2 s4 : Sys) (m : String)
    (hconn : isConnected s = true)
    (hatt : executeAttempt command s = (.error (.connErr m), s2))
    (hauto : s2.cfg.autoReconnect = true)
    (hrec : reconnectS (clearFlags s2) = (true, s4)) :
    executeBody command true onRetry s = onRetry s4 := by
  unfold executeBody
  rw [ensureConnected_connected true s hconn]
  dsimp only
  rw [hatt]
  dsimp only
  rw [if_pos (by simp [clearFlags, hauto])]
  rw [hrec]

/-- C1: (1) no `execute()` call ever writes the command packet more than
twice; (2) when the first attempt hits a connection error after sending
(stream closed by the peer mid-read) and the reconnection succeeds, the
command is re-sent exactly once and the call returns the response — the
trace carries exactly two `ExecCommand` packets. -/
theorem claim_C1_at_most_once_retry :
    (∀ (command : String) (retry : Bool) (s : Sys),
      cmdCount (executeInternalS command retry s).2.sent ≤ cmdCount s.sent + 2) ∧
    (∀ (command reply pw : String) (mA : Nat) (w : List ConnectOutcome)
      (sn : List RCONPacket), (utf8Encode reply).length ≤ 4086 →
      ∃ s', executeInternalS command true
          ⟨⟨pw, true, mA + 1⟩, ⟨0, true, true⟩, some ⟨[], true, [], []⟩,
            (.ok ⟨RCONPacket.encode ⟨2, 2, ""⟩ ++
              (RCONPacket.encode ⟨3, 0, reply⟩ ++ []), true, [], []⟩) :: w, sn⟩
        = (.ok reply, s') ∧
      cmdCount s'.sent = cmdCount sn + 2) := by
  constructor
  · exact executeInternalS_cmdCount
  · intro command reply pw mA w sn hreply
    have hwfr : wfPacket ⟨3, 0, reply⟩ :=
      ⟨by norm_num, by norm_num, by norm_num, by norm_num, hreply⟩
    -- the first attempt: the peer closed the stream, the read fails as a
    -- connection error after the command packet was written
    have hrecv1 : receivePacketS ⟨⟨pw, true, mA + 1⟩, ⟨nextRequestId 0, true, true⟩,
        some ⟨[], true, [], []⟩,
        (.ok ⟨RCONPacket.encode ⟨2, 2, ""⟩ ++
          (RCONPacket.encode ⟨3, 0, reply⟩ ++ []), true, [], []⟩) :: w,
        sn ++ [⟨((nextRequestId 0 : Nat) : Int), 2, command⟩]⟩ =
        (.error (.connErr "Connexion fermée par le serveur"),
          clearFlags ⟨⟨pw, true, mA + 1⟩, ⟨nextRequestId 0, true, true⟩,
            some ⟨[], true, [], []⟩,
            (.ok ⟨RCONPacket.encode ⟨2, 2, ""⟩ ++
              (RCONPacket.encode ⟨3, 0, reply⟩ ++ []), true, [], []⟩) :: w,
            sn ++ [⟨((nextRequestId 0 : Nat) : Int), 2, command⟩]⟩) := by
      have h0 := receivePacketS_empty ⟨pw, true, mA + 1⟩ ⟨nextRequestId 0, true, true⟩
        true []
        ((.ok ⟨RCONPacket.encode ⟨2, 2, ""⟩ ++
          (RCONPacket.encode ⟨3, 0, reply⟩ ++ []), true, [], []⟩) :: w)
        (sn ++ [⟨((nextRequestId 0 : Nat) : Int), 2, command⟩])
      rw [if_pos rfl] at h0
      exact h0
    have hatt1 : executeAttempt command ⟨⟨pw, true, mA + 1⟩, ⟨0, true, true⟩,
        some ⟨[], true, [], []⟩,
        (.ok ⟨RCONPacket.encode ⟨2, 2, ""⟩ ++
          (RCONPacket.encode ⟨3, 0, reply⟩ ++ []), true, [], []⟩) :: w, sn⟩ =
        (.error (.connErr "Connexion fermée par le serveur"),
          clearFlags ⟨⟨pw, true, mA + 1⟩, ⟨nextRequestId 0, true, true⟩,
            some ⟨[], true, [], []⟩,
            (.ok ⟨RCONPacket.encode ⟨2, 2, ""⟩ ++
              (RCONPacket.encode ⟨3, 0, reply⟩ ++ []), true, [], []⟩) :: w,
            sn ++ [⟨((nextRequestId 0 : Nat) : Int), 2, command⟩]⟩) := by
      rw [executeAttempt_clean, execLoop_eq, hrecv1]
    -- the reconnection: one cycle, the scripted server accepts the auth
    have hrec : reconnectS (clearFlags (clearFlags ⟨⟨pw, true, mA + 1⟩,
        ⟨nextRequestId 0, true, true⟩, some ⟨[], true, [], []⟩,
        (.ok ⟨RCONPacket.encode ⟨2, 2, ""⟩ ++
          (RCONPacket.encode ⟨3, 0, reply⟩ ++ []), true, [], []⟩) :: w,
        sn ++ [⟨((nextRequestId 0 : Nat) : Int), 2, command⟩]⟩)) =
        (true, ⟨⟨pw, true, mA + 1⟩,
          ⟨nextRequestId (nextRequestId 0), true, true⟩,
          some ⟨RCONPacket.encode ⟨3, 0, reply⟩ ++ [], true, [], []⟩, w,
          (sn ++ [⟨((nextRequestId 0 : Nat) : Int), 2, command⟩]) ++
            [⟨((nextRequestId (nextRequestId 0) : Nat) : Int), 3, pw⟩]⟩) := by
      show reconnectLoop (mA + 1) _ = _
      exact reconnectLoop_ok_first mA ⟨pw, true, mA + 1⟩ (nextRequestId 0) false
        (some ⟨[], true, [], []⟩) ⟨2, 2, ""⟩
        (RCONPacket.encode ⟨3, 0, reply⟩ ++ []) true w
        (sn ++ [⟨((nextRequestId 0 : Nat) : Int), 2, command⟩])
        (by decide) (by decide) (by decide)
    -- the re-sent command: the response frame matches the new request id
    have hrecv2 : receivePacketS ⟨⟨pw, true, mA + 1⟩,
        ⟨nextRequestId (nextRequestId (nextRequestId 0)), true, true⟩,
        some ⟨RCONPacket.encode ⟨3, 0, reply⟩ ++ [], true, [], []⟩, w,
        ((sn ++ [⟨((nextRequestId 0 : Nat) : Int), 2, command⟩]) ++
          [⟨((nextRequestId (nextRequestId 0) : Nat) : Int), 3, pw⟩]) ++
          [⟨((nextRequestId (nextRequestId (nextRequestId 0)) : Nat) : Int), 2,
            command⟩]⟩ =
        (.ok ⟨3, 0, reply⟩, ⟨⟨pw, true, mA + 1⟩,
          ⟨nextRequestId (nextRequestId (nextRequestId 0)), true, true⟩,
          some ⟨[], true, [], []⟩, w,
          ((sn ++ [⟨((nextRequestId 0 : Nat) : Int), 2, command⟩]) ++
            [⟨((nextRequestId (nextRequestId 0) : Nat) : Int), 3, pw⟩]) ++
            [⟨((nextRequestId (nextRequestId (nextRequestId 0)) : Nat) : Int), 2,
              command⟩]⟩) :=
      receivePacketS_frame ⟨3, 0, reply⟩ ⟨pw, true, mA + 1⟩
        ⟨nextRequestId (nextRequestId (nextRequestId 0)), true, true⟩ [] true [] w
        _ hwfr
    have hatt2 : executeAttempt command ⟨⟨pw, true, mA + 1⟩,
        ⟨nextRequestId (nextRequestId 0), true, true⟩,
        some ⟨RCONPacket.encode ⟨3, 0, reply⟩ ++ [], true, [], []⟩, w,
        (sn ++ [⟨((nextRequestId 0 : Nat) : Int), 2, command⟩]) ++
          [⟨((nextRequestId (nextRequestId 0) : Nat) : Int), 3, pw⟩]⟩ =
        (.ok reply, ⟨⟨pw, true, mA + 1⟩,
          ⟨nextRequestId (nextRequestId (nextRequestId 0)), true, true⟩,
          some ⟨[], true, [], []⟩, w,
          ((sn ++ [⟨((nextRequestId 0 : Nat) : Int), 2, command⟩]) ++
            [⟨((nextRequestId (nextRequestId 0) : Nat) : Int), 3, pw⟩]) ++
            [⟨((nextRequestId (nextRequestId (nextRequestId 0)) : Nat) : Int), 2,
              command⟩]⟩) := by
      rw [executeAttempt_clean, execLoop_eq, hrecv2]
      dsimp only
      rw [if_neg (by decide)]
    refine ⟨⟨⟨pw, true, mA + 1⟩,
      ⟨nextRequestId (nextRequestId (nextRequestId 0)), true, true⟩,
      some ⟨[], true, [], []⟩, w,
      ((sn ++ [⟨((nextRequestId 0 : Nat) : Int), 2, command⟩]) ++
        [⟨((nextRequestId (nextRequestId 0) : Nat) : Int), 3, pw⟩]) ++
        [⟨((nextRequestId (nextRequestId (nextRequestId 0)) : Nat) : Int), 2,
          command⟩]⟩, ?_, ?_⟩
    · show executeBody command true _ _ = _
      rw [executeBody_connErr_retry command _ _ _ _
        "Connexion fermée par le serveur" (by rfl) hatt1 (by simp [clearFlags])
        hrec]
      exact executeBody_ok command false _ _ reply _ (by rfl) hatt2
    · simp [cmdCount_append, cmdCount]

theorem claim_C1_witness :
    (cmdCount (executeInternalS "list" true ⟨⟨"pw", true, 3⟩, ⟨0, true, true⟩,
        some ⟨[], false, [], []⟩, [], []⟩).2.sent ≤
      cmdCount ([] : List RCONPacket) + 2) ∧
    (∃ s', executeInternalS "list" true
        ⟨⟨"pw", true, 2 + 1⟩, ⟨0, true, true⟩, some ⟨[], true, [], []⟩,
          (.ok ⟨RCONPacket.encode ⟨2, 2, ""⟩ ++
            (RCONPacket.encode ⟨3, 0, "r2"⟩ ++ []), true, [], []⟩) :: [], []⟩
      = (.ok "r2", s') ∧
    cmdCount s'.sent = cmdCount ([] : List RCONPacket) + 2) :=
  ⟨claim_C1_at_most_once_retry.1 "list" true ⟨⟨"pw", true, 3⟩, ⟨0, true, true⟩,
      some ⟨[], false, [], []⟩, [], []⟩,
    claim_C1_at_most_once_retry.2 "list" "r2" "pw" 2 [] [] (by decide)⟩

theorem claim_C4_witness :
    (receivePacketS ⟨⟨"pw", true, 3⟩, ⟨0, true, true⟩,
        some ⟨int32LE (((List.replicate 5 0).length : Nat) : Int) ++
          (List.replicate 5 0 ++ []), true, [], []⟩, [], []⟩).1
      = .error (.protocolErr "Taille de paquet invalide") :=
  claim_C4_size_gate (List.replicate 5 0) [] ⟨"pw", true, 3⟩ ⟨0, true, true⟩
    true [] [] [] (by decide) (by decide)

end MCRcon
